import Mathlib

/-!
Verification development for the pico-webserver connectivity bootstrap layer.

The Python sources are shallowly embedded:

* src/src/micropython_default/lib/project/utility.py
  the secrets file `env/secrets.py` is a list of text lines; `dynamic_set_secret`
  rewrites every line that contains the key name as a substring (Python
  `name not in line`), and `dynamic_get_secret` models the dynamic
  `exec("import env.secrets")` by parsing each line as a Python assignment
  `NAME = None` / `NAME = '<value>'` and taking the last binding of the
  requested attribute.  A line that Python could not execute (or that this
  conservative parser cannot decide) makes the whole read fail, mirroring the
  exception that `exec` would raise.
* src/src/micropython_default/lib/project/connection.py
  radio observations (scan results, status/active/connected polls) are an
  explicit environment of observation traces; bounded `iter(range(n))` retry
  loops are a fuel-based `runPoll`; MicroPython exceptions are an error type
  threaded through `Except`, and the scan / connect-request / AP-reset actions
  are recorded as events so that claims about "never scans" or "resets exactly
  once" are statable.
* src/src/micropython_default/main.py (`set_connection` route handler).
-/

/-! ## Character and substring helpers -/

/-- Characters that survive a round trip through the single-quoted Python
string literal written by `dynamic_set_secret` unchanged.  A quote would end
the literal early (a syntax error in the rewritten file), a backslash would be
reinterpreted as an escape and a newline would split the physical line; the
parser below conservatively rejects all three. -/
def cleanCharB (c : Char) : Bool :=
  !(c == '\'') && !(c == '\\') && !(c == '\n')

def cleanStrB (s : String) : Bool := s.data.all cleanCharB

def cleanOptB (v : Option String) : Bool :=
  match v with
  | none => true
  | some s => cleanStrB s

/-- Substring test on character lists, Python's `pat in s`. -/
def listContains : List Char → List Char → Bool
  | _, [] => true
  | [], _ :: _ => false
  | a :: as, p => (List.isPrefixOf p (a :: as)) || listContains as p

/-- Python's `pat in line` on strings, as used by `dynamic_set_secret`. -/
def containsSub (l pat : String) : Bool := listContains l.data pat.data

/-! ## The secrets file model (utility.py) -/

/-- One physical line of `env/secrets.py` (without the trailing newline). -/
abbrev Store := List String

/-- `None if isinstance(value, str) and value == "" else value` -/
def normalizeSecret (v : Option String) : Option String :=
  match v with
  | some s => if s = "" then none else some s
  | none => none

/-- Python `repr`-style right-hand side written by the in-place rewrite branch
of `dynamic_set_secret`: `"{} = {}\n"` for `None`, `"{} = '{}'\n"` otherwise. -/
def pyRepr (v : Option String) : String :=
  match v with
  | none => "None"
  | some s => "'" ++ s ++ "'"

/-- The replacement line `secret_line.format(name, value)`. -/
def formatLine (name : String) (v : Option String) : String :=
  name ++ " = " ++ pyRepr v

/-- The appended line `"{} = '{}'\n".format(name, value)`: note the source
always quotes here, so an unset (`None`) value is appended as the literal
text `'None'`. -/
def appendLine (name : String) (v : Option String) : String :=
  name ++ " = '" ++ (match v with | none => "None" | some s => s) ++ "'"

def isIdentChar (c : Char) : Bool := c.isAlpha || c.isDigit || c == '_'

/-- A Python identifier (ASCII): non-empty, identifier characters only, not
starting with a digit. -/
def isIdentName (s : String) : Bool :=
  match s.data with
  | [] => false
  | c :: _ => !c.isDigit && s.data.all isIdentChar

/-- Parse the inside of a single-quoted literal: the character list must end
with the closing quote, and contain no quote, backslash or newline before it. -/
def unquote : List Char → Option (List Char)
  | [] => none
  | c :: rest =>
    if rest = [] then (if c = '\'' then some [] else none)
    else if cleanCharB c then (unquote rest).map (fun cs => c :: cs) else none

/-- Parse the right-hand side of an assignment: `None` or `'<value>'`. -/
def parseRhs (cs : List Char) : Option (Option String) :=
  if cs = ['N', 'o', 'n', 'e'] then some none
  else
    match cs with
    | '\'' :: rest => (unquote rest).map (fun inner => some (String.mk inner))
    | _ => none

/-- Parse one physical line, given as a character list. -/
def parseLineAux (cs : List Char) : Option (String × Option String) :=
  match cs.takeWhile isIdentChar with
  | [] => none
  | c :: rest =>
    if c.isDigit then none
    else
      match cs.dropWhile isIdentChar with
      | ' ' :: '=' :: ' ' :: rhs =>
        (parseRhs rhs).map (fun v => (String.mk (c :: rest), v))
      | _ => none

/-- Parse one line of `env/secrets.py` as the Python assignment that
`exec("import env.secrets")` would execute: `name = None` or `name = '<v>'`. -/
def parseLine (l : String) : Option (String × Option String) :=
  parseLineAux l.data

/-- Execute the whole file: every line must parse, in order. -/
def parseStore : Store → Option (List (String × Option String))
  | [] => some []
  | l :: ls =>
    match parseLine l, parseStore ls with
    | some b, some bs => some (b :: bs)
    | _, _ => none

/-- The value `getattr(sys.modules["env.secrets"], name, None)` observes:
the last assignment to `name` in the executed module body. -/
def lastBinding (name : String) : List (String × Option String) → Option (Option String)
  | [] => none
  | b :: bs =>
    match lastBinding name bs with
    | some w => some w
    | none => if b.1 = name then some b.2 else none

/-- `dynamic_get_secret` (utility.py lines 99-119): re-import `env.secrets`,
read the attribute (default `None`), normalise the empty string to `None`.
A file that the module loader cannot execute raises, modelled as
`Except.error`. -/
def dynamic_get_secret (st : Store) (name : String) : Except Unit (Option String) :=
  match parseStore st with
  | none => .error ()
  | some bs => .ok (normalizeSecret ((lastBinding name bs).getD none))

/-- `dynamic_set_secret` (utility.py lines 122-152): normalise the value,
replace in place every line that contains `name` as a substring, append a
(always-quoted) line when no line matched, and return `value is not None`. -/
def dynamic_set_secret (st : Store) (name : String) (value : Option String) :
    Bool × Store :=
  let v := normalizeSecret value
  let found := st.any (fun l => containsSub l name)
  let replaced := st.map (fun l => if containsSub l name then formatLine name v else l)
  ((v.isSome : Bool), if found then replaced else replaced ++ [appendLine name v])

/-- The baseline file written by `create_secrets` (utility.py lines 73-96)
when `env/secrets.py` is missing: every recognised key set to `None`. -/
def initialSecrets : Store :=
  ["AP_SSID = None", "AP_PASSWORD = None", "WLAN_SSID = None",
   "WLAN_PASSWORD = None", "MQTT_ENDPOINT = None", "MQTT_CLIENT_ID = None"]

/-! ## The wireless interface model (connection.py) -/

/-- `network.STA_IF` / `WLAN.IF_STA`. -/
def STA_IF : Nat := 0

/-- `network.AP_IF` / `WLAN.IF_AP`. -/
def AP_IF : Nat := 1

/-- `network.STAT_GOT_IP`. -/
def STAT_GOT_IP : Int := 3

/-- The exceptions the connection layer can raise.  `execError` stands for an
exception escaping `exec("import env.secrets")` on an unreadable secrets file. -/
inductive PyErr
  | wlanConnectionError
  | stopIteration
  | execError
deriving DecidableEq, Repr

/-- Radio actions the embedding records so that claims about them are
statable: a network scan, a connect request issued to the radio, and an
`access_point_reset` invocation. -/
inductive NetEvent
  | scanEv
  | connectReq
  | apReset
deriving DecidableEq, Repr

/-- Observation traces the radio environment supplies to the polling loops,
plus the scan result (already decoded SSID names, possibly with blanks). -/
structure NetEnv where
  scan : List String
  connStatus : Nat → Int
  connConnected : Nat → Bool
  actStatus : Nat → Int
  actActive : Nat → Bool
  deactActive : Nat → Bool

/-- A `network.WLAN` instance: its constructor mode and the `config`-ured
SSID/password. -/
structure WLAN where
  mode : Nat
  ssid : Option String := none
  password : Option String := none
deriving DecidableEq, Repr

/-- The `await_timeout = iter(range(n)); while next(await_timeout) >= 0: ...`
pattern: check the condition at poll indices `k, k+1, ...` for at most the
given budget; the returned pair is (number of condition checks made, whether
the loop exited via `break` rather than `StopIteration`). -/
def runPoll : Nat → Nat → (Nat → Bool) → Nat × Bool
  | 0, k, _ => (k, false)
  | n + 1, k, cond => if cond k then (k + 1, true) else runPoll n (k + 1) cond

/-- `activate_interface` (connection.py lines 64-88): activate, then poll up
to 5 times for `status == STAT_GOT_IP or active`; the `StopIteration` on
budget exhaustion is caught, so the function always returns. -/
def activate_interface (env : NetEnv) : Nat × Bool :=
  runPoll 5 0 (fun i => (env.actStatus i == STAT_GOT_IP) || env.actActive i)

/-- `deactivate_interface` (connection.py lines 91-112): deactivate, then poll
up to 5 times for `not active`; exhaustion is likewise caught. -/
def deactivate_interface (env : NetEnv) : Nat × Bool :=
  runPoll 5 0 (fun i => !(env.deactActive i))

/-- `{name.decode() for name,*_ in set(WLAN.scan()) if name}`. -/
def availableNetworks (scan : List String) : List String :=
  scan.filter (fun n => n ≠ "")

/-- `connect_interface` (connection.py lines 115-168).  Reads the station
credentials (a failing read propagates as `execError`); raises
`WLANConnectionError` when the SSID secret is unset, when the SSID is not in
the scan result, or when the radio rejects the connect request (the
`TypeError` raised in AP mode); then polls up to 30 times for
`status == STAT_GOT_IP or isconnected()` and re-raises the bare
`StopIteration` on exhaustion. -/
def connect_interface (env : NetEnv) (w : WLAN) (st : Store) :
    Except PyErr Unit × List NetEvent :=
  match dynamic_get_secret st "WLAN_SSID" with
  | .error _ => (.error .execError, [])
  | .ok wlanSsid =>
    match dynamic_get_secret st "WLAN_PASSWORD" with
    | .error _ => (.error .execError, [])
    | .ok _wlanPassword =>
      match wlanSsid with
      | none => (.error .wlanConnectionError, [])
      | some ssid =>
        if ssid ∈ availableNetworks env.scan then
          if w.mode = STA_IF then
            let poll := runPoll 30 0
              (fun i => (env.connStatus i == STAT_GOT_IP) || env.connConnected i)
            if poll.snd then (.ok (), [.scanEv, .connectReq])
            else (.error .stopIteration, [.scanEv, .connectReq])
          else (.error .wlanConnectionError, [.scanEv, .connectReq])
        else (.error .wlanConnectionError, [.scanEv])

/-- `access_point_reset` (connection.py lines 171-192): disconnect, deactivate
and deinit the old instance, build a fresh AP-mode instance configured with
the stored `AP_SSID`/`AP_PASSWORD`, activate it and return it with `AP_IF`. -/
def access_point_reset (env : NetEnv) (w : WLAN) (st : Store) :
    Except PyErr (WLAN × Nat) :=
  let _ := deactivate_interface env
  let _ := w
  match dynamic_get_secret st "AP_SSID" with
  | .error _ => .error .execError
  | .ok apSsid =>
    match dynamic_get_secret st "AP_PASSWORD" with
    | .error _ => .error .execError
    | .ok apPassword =>
      let w2 : WLAN := { mode := AP_IF, ssid := apSsid, password := apPassword }
      let _ := activate_interface env
      .ok (w2, AP_IF)

/-- `binascii.hexlify(machine.unique_id()).decode().upper()`, byte by byte. -/
def hexDigits : List Char :=
  ['0', '1', '2', '3', '4', '5', '6', '7', '8', '9', 'A', 'B', 'C', 'D', 'E', 'F']

def hexDigit (n : Nat) : Char := hexDigits.getD n 'F'

def byteHex (b : Nat) : String :=
  String.mk [hexDigit (b / 16 % 16), hexDigit (b % 16)]

def hexUpper : List Nat → String
  | [] => ""
  | b :: bs => byteHex b ++ hexUpper bs

/-- Result of `get_network_interface`: the returned `(WLAN, WLAN_MODE)` pair,
the secrets file after the call, and the recorded radio events. -/
structure AcquireResult where
  wlan : WLAN
  mode : Nat
  store : Store
  events : List NetEvent
deriving DecidableEq, Repr

/-- The `try: connect_interface ... except WLANConnectionError | StopIteration`
block closing `get_network_interface` (connection.py lines 273-287): return
the connected station interface on success, fall back to `access_point_reset`
on either connection exception. -/
def acquireFinish (env : NetEnv) (w : WLAN) (st2 : Store) (wlanMode : Nat) :
    Except PyErr AcquireResult :=
  match connect_interface env w st2 with
  | (.ok _, evs) =>
    .ok { wlan := w, mode := wlanMode, store := st2, events := evs }
  | (.error .wlanConnectionError, evs) =>
    match access_point_reset env w st2 with
    | .ok (w2, m2) =>
      .ok { wlan := w2, mode := m2, store := st2, events := evs ++ [.apReset] }
    | .error e => .error e
  | (.error .stopIteration, evs) =>
    match access_point_reset env w st2 with
    | .ok (w2, m2) =>
      .ok { wlan := w2, mode := m2, store := st2, events := evs ++ [.apReset] }
    | .error e => .error e
  | (.error .execError, _) => .error .execError

/-- `get_network_interface` (connection.py lines 195-287).  Reads all four
credentials; generates and persists `AP_SSID`/`AP_PASSWORD` from the device
id when either is unset; chooses AP mode (clearing the station secrets) when
the station SSID is unset or empty, station mode otherwise; configures and
activates the instance; then attempts `connect_interface`, falling back to
`access_point_reset` on `WLANConnectionError` or `StopIteration`. -/
def get_network_interface (env : NetEnv) (devId : List Nat) (st0 : Store) :
    Except PyErr AcquireResult :=
  match dynamic_get_secret st0 "WLAN_SSID", dynamic_get_secret st0 "WLAN_PASSWORD",
      dynamic_get_secret st0 "AP_SSID", dynamic_get_secret st0 "AP_PASSWORD" with
  | .ok wlanSsid, .ok _wlanPassword, .ok apSsid0, .ok apPassword0 =>
    let genNeeded := apSsid0.isNone || apPassword0.isNone
    let picoId := hexUpper devId
    let apSsid := if genNeeded then some ("PICO-W-" ++ picoId) else apSsid0
    let apPassword := if genNeeded then some picoId else apPassword0
    let st1 :=
      if genNeeded then
        (dynamic_set_secret
          (dynamic_set_secret st0 "AP_SSID" (some ("PICO-W-" ++ picoId))).snd
          "AP_PASSWORD" (some picoId)).snd
      else st0
    let staUnset := match wlanSsid with | none => true | some s => s.length < 1
    let wlanMode := if staUnset then AP_IF else STA_IF
    let st2 :=
      if staUnset then
        (dynamic_set_secret (dynamic_set_secret st1 "WLAN_SSID" none).snd
          "WLAN_PASSWORD" none).snd
      else st1
    let w : WLAN := { mode := wlanMode, ssid := apSsid, password := apPassword }
    let _ := activate_interface env
    acquireFinish env w st2 wlanMode
  | _, _, _, _ => .error .execError

/-- `connection_issue` (connection.py lines 290-303): pure predicate on the
mode constant and the `isconnected()` observation. -/
def connection_issue (wlanMode : Nat) (isconnected : Bool) : Bool :=
  (wlanMode == AP_IF) || ((wlanMode == STA_IF) && !isconnected)

/-! ## The provisioning route handler (main.py) -/

/-- `set_connection` (main.py lines 181-191): always persist the submitted
password, then persist the SSID and use `dynamic_set_secret`'s boolean result
to choose between the 400 (invalid) and 205 (success) responses. -/
def set_connection (formSsid formPassword : Option String) (st : Store) :
    Nat × Store :=
  let r1 := dynamic_set_secret st "WLAN_PASSWORD" formPassword
  let r2 := dynamic_set_secret r1.snd "WLAN_SSID" formSsid
  (if r2.fst then 205 else 400, r2.snd)

def exEnvDead : NetEnv :=
  { scan := ["HomeNet"], connStatus := fun _ => 0, connConnected := fun _ => false,
    actStatus := fun _ => 0, actActive := fun _ => true, deactActive := fun _ => false }

def exStoreHome : Store :=
  ["AP_SSID = 'PICO-W-E661'", "AP_PASSWORD = 'E661'", "WLAN_SSID = 'HomeNet'",
   "WLAN_PASSWORD = 'secret'", "MQTT_ENDPOINT = None", "MQTT_CLIENT_ID = None"]

/-- A line is sane with respect to key `k` when it executes, and contains the
text `k` only if it is `k`'s own assignment line.  Every line that
`create_secrets` or `dynamic_set_secret` writes for the recognised keys has
this shape; it rules out values that smuggle another key's name into a line,
which the substring-based rewrite of `dynamic_set_secret` would then clobber. -/
def saneFor (k : String) (l : String) : Bool :=
  match parseLine l with
  | none => false
  | some b => !(containsSub l k) || (b.1 == k)

def storeSane (k : String) (st : Store) : Bool := st.all (saneFor k)

/-- Python's `name_found` flag: some line contains `k` as a substring. -/
def hasSub (st : Store) (k : String) : Bool := st.any (fun l => containsSub l k)

def hexUpChar (c : Char) : Bool := hexDigits.contains c

/-- "There is a mismatch between `pat` and `s` strictly inside `s`": enough to
refute `pat.isPrefixOf (s ++ t)` for every tail `t`. -/
def mismatchInside : List Char → List Char → Bool
  | _, [] => false
  | [], _ :: _ => false
  | p :: ps, c :: cs => (p != c) || mismatchInside ps cs

/-- Every non-empty suffix of the (concrete) prefix mismatches the pattern
strictly inside itself. -/
def allSuffixesMismatch (pat : List Char) : List Char → Bool
  | [] => true
  | c :: cs => mismatchInside pat (c :: cs) && allSuffixesMismatch pat cs

/-- The freshly generated `AP_SSID` line, `AP_SSID = 'PICO-W-<hex>'`. -/
def apSsidLine (bs : List Nat) : String :=
  formatLine "AP_SSID" (some ("PICO-W-" ++ hexUpper bs))

/-- The freshly generated `AP_PASSWORD` line, `AP_PASSWORD = '<hex>'`. -/
def apPwLine (bs : List Nat) : String :=
  formatLine "AP_PASSWORD" (some (hexUpper bs))

/-- The four credential keys the connection layer manipulates. -/
def recognisedKeys : List String :=
  ["AP_SSID", "AP_PASSWORD", "WLAN_SSID", "WLAN_PASSWORD"]

/-- A value is fit to be written under key `k`: after normalisation it is
clean (representable in the single-quoted literal), and the line written for
it — replacement or appended form — mentions no recognised key other than `k`
(else the substring-matching rewrite of a later `dynamic_set_secret` call
would clobber the line). -/
def valueOK (k : String) (v : Option String) : Bool :=
  cleanOptB (normalizeSecret v) &&
  recognisedKeys.all (fun m =>
    (m == k) ||
    (!(containsSub (formatLine k (normalizeSecret v)) m) &&
     !(containsSub (appendLine k (normalizeSecret v)) m)))

/-- A store the connection layer can safely operate on: for every recognised
key, every line parses, a line mentioning the key is that key's own
assignment, and at least one line mentions the key (true of the baseline file
`create_secrets` writes, and preserved by all the writes the code performs). -/
def goodStore (st : Store) : Bool :=
  recognisedKeys.all (fun k => storeSane k st && hasSub st k)

def exEnvNoScan : NetEnv :=
  { scan := [], connStatus := fun _ => 0, connConnected := fun _ => false,
    actStatus := fun _ => 0, actActive := fun _ => true,
    deactActive := fun _ => false }

def exStore9 : Store := ["WLAN_SSID = 'AP_SSID'", "WLAN_PASSWORD = None"]


/-! ## Basic lemmas about the secrets model -/

theorem string_mk_data (s : String) : String.mk s.data = s := by
  cases s
  rfl

theorem normalizeSecret_ne_some_empty (v : Option String) :
    normalizeSecret v ≠ some "" := by
  rcases v with _ | s
  · simp [normalizeSecret]
  · simp only [normalizeSecret]
    split
    · simp
    · simpa using fun h => by simp_all

theorem normalizeSecret_idem (v : Option String) :
    normalizeSecret (normalizeSecret v) = normalizeSecret v := by
  rcases v with _ | s
  · rfl
  · by_cases h : s = "" <;> simp [normalizeSecret, h]

theorem normalizeSecret_of_ne_empty {s : String} (h : s ≠ "") :
    normalizeSecret (some s) = some s := by
  simp [normalizeSecret, h]

theorem listContains_of_prefix {p l : List Char} (h : p <+: l) :
    listContains l p = true := by
  rcases p with _ | ⟨c, cs⟩
  · cases l <;> rfl
  · rcases l with _ | ⟨a, as⟩
    · simpa using h.length_le
    · simp only [listContains, Bool.or_eq_true]
      exact Or.inl (List.isPrefixOf_iff_prefix.mpr h)

theorem parseLine_name_eq {l : String} {n : String} {v : Option String}
    (h : parseLine l = some (n, v)) :
    n.data = l.data.takeWhile isIdentChar := by
  unfold parseLine parseLineAux at h
  rcases hn : l.data.takeWhile isIdentChar with _ | ⟨c, cs⟩ <;> rw [hn] at h
  · exact absurd h (by simp)
  · simp only [List.dropWhile] at h ⊢
    split at h
    · exact absurd h (by simp)
    · split at h
      · rcases Option.map_eq_some'.mp h with ⟨v', _, hv⟩
        have hfst := congrArg Prod.fst hv
        simp only at hfst
        rw [← hfst]
      · exact absurd h (by simp)

theorem parseLine_name_prefixOf {l : String} {n : String} {v : Option String}
    (h : parseLine l = some (n, v)) : n.data <+: l.data := by
  rw [parseLine_name_eq h]
  exact List.takeWhile_prefix isIdentChar

/-- A line that executes as an assignment to `n` contains `n` as a substring
(`n` is in fact a prefix), hence is rewritten by `dynamic_set_secret n`. -/
theorem parseLine_containsSub {l : String} {n : String} {v : Option String}
    (h : parseLine l = some (n, v)) : containsSub l n = true :=
  listContains_of_prefix (parseLine_name_prefixOf h)

theorem takeWhile_ident_append (xs ys : List Char)
    (h : xs.all isIdentChar = true) :
    (xs ++ ' ' :: ys).takeWhile isIdentChar = xs := by
  induction xs with
  | nil =>
    have : isIdentChar ' ' = false := by decide
    simp [List.takeWhile_cons, this]
  | cons c cs ih =>
    simp only [List.all_cons, Bool.and_eq_true] at h
    simp [List.takeWhile_cons, h.1, ih h.2]

theorem dropWhile_ident_append (xs ys : List Char)
    (h : xs.all isIdentChar = true) :
    (xs ++ ' ' :: ys).dropWhile isIdentChar = ' ' :: ys := by
  induction xs with
  | nil =>
    have : isIdentChar ' ' = false := by decide
    simp [List.dropWhile_cons, this]
  | cons c cs ih =>
    simp only [List.all_cons, Bool.and_eq_true] at h
    simp [List.dropWhile_cons, h.1, ih h.2]

theorem unquote_clean (cs : List Char) (h : cs.all cleanCharB = true) :
    unquote (cs ++ ['\'']) = some cs := by
  induction cs with
  | nil => rfl
  | cons c cs ih =>
    simp only [List.all_cons, Bool.and_eq_true] at h
    have hne : cs ++ ['\''] ≠ [] := by simp
    show unquote (c :: (cs ++ ['\''])) = some (c :: cs)
    unfold unquote
    rw [if_neg hne, ih h.2]
    simp [h.1]

theorem pyRepr_some_data (s : String) :
    (pyRepr (some s)).data = '\'' :: (s.data ++ ['\'']) := by
  show ("'" ++ s ++ "'").data = _
  simp [String.data_append]

theorem parseRhs_none : parseRhs (pyRepr none).data = some none := rfl

theorem parseRhs_some (s : String) (h : cleanStrB s = true) :
    parseRhs (pyRepr (some s)).data = some (some s) := by
  rw [pyRepr_some_data]
  have hne : ('\'' :: (s.data ++ ['\''])) ≠ ['N', 'o', 'n', 'e'] := by
    intro hc
    injection hc with h1 _
    exact absurd h1 (by decide)
  unfold parseRhs
  rw [if_neg hne]
  show Option.map (fun inner => some (String.mk inner)) (unquote (s.data ++ ['\''])) =
    some (some s)
  rw [unquote_clean s.data h]
  simp [string_mk_data]

/-- The rewritten line `name = <repr>` executes as an assignment of exactly
that value to exactly that name. -/
theorem parseLine_formatLine (n : String) (v : Option String)
    (hn : isIdentName n = true) (hv : cleanOptB v = true) :
    parseLine (formatLine n v) = some (n, v) := by
  obtain ⟨c, cs, hcs, hdig, hall⟩ :
      ∃ c cs, n.data = c :: cs ∧ c.isDigit = false ∧ n.data.all isIdentChar = true := by
    unfold isIdentName at hn
    rcases hd : n.data with _ | ⟨c, cs⟩ <;> rw [hd] at hn
    · exact absurd hn (by simp)
    · simp only [Bool.and_eq_true, Bool.not_eq_true'] at hn
      exact ⟨c, cs, rfl, hn.1, hd ▸ hn.2⟩
  have hdata : (formatLine n v).data = n.data ++ ' ' :: '=' :: ' ' :: (pyRepr v).data := by
    show (n ++ " = " ++ pyRepr v).data = _
    simp [String.data_append]
  unfold parseLine parseLineAux
  rw [hdata, takeWhile_ident_append _ _ hall, dropWhile_ident_append _ _ hall, hcs]
  have hmk : String.mk (c :: cs) = n := by
    rw [← hcs]
  rcases v with _ | s
  · simp [hdig, parseRhs_none, hmk]
  · simp [hdig, parseRhs_some s hv, hmk]

/-! ## Store sanity and the behaviour of set/get -/


theorem saneFor_parse {k l : String} (h : saneFor k l = true) :
    ∃ b, parseLine l = some b := by
  unfold saneFor at h
  rcases hp : parseLine l with _ | b <;> rw [hp] at h
  · exact absurd h (by simp)
  · exact ⟨b, rfl⟩

theorem saneFor_binds {k l : String} (h : saneFor k l = true)
    (hc : containsSub l k = true) : ∃ v, parseLine l = some (k, v) := by
  unfold saneFor at h
  rcases hp : parseLine l with _ | ⟨n, v⟩ <;> rw [hp] at h
  · exact absurd h (by simp)
  · rw [hc] at h
    simp only [Bool.not_true, Bool.false_or, beq_iff_eq] at h
    exact ⟨v, by rw [h]⟩

theorem storeSane_parseStore {k : String} {st : Store}
    (h : storeSane k st = true) : ∃ bs, parseStore st = some bs := by
  induction st with
  | nil => exact ⟨[], rfl⟩
  | cons l ls ih =>
    simp only [storeSane, List.all_cons, Bool.and_eq_true] at h
    obtain ⟨b, hb⟩ := saneFor_parse h.1
    obtain ⟨bs, hbs⟩ := ih h.2
    exact ⟨b :: bs, by simp [parseStore, hb, hbs]⟩

theorem lastBinding_append (k : String) (bs cs : List (String × Option String)) :
    lastBinding k (bs ++ cs) =
      (match lastBinding k cs with
       | some w => some w
       | none => lastBinding k bs) := by
  induction bs with
  | nil =>
    simp only [List.nil_append]
    cases h : lastBinding k cs <;> simp [h, lastBinding]
  | cons b bs ih =>
    simp only [List.cons_append, lastBinding, List.append_eq, ih]
    cases h : lastBinding k cs <;> simp [h]

/-- Core description of the in-place rewrite branch: after mapping the
replacement function over a `k`-sane store, the file still executes, the last
binding of `k` is the written value exactly when some line contained `k`, and
the binding of every other name is untouched. -/
theorem parseStore_map_set (k : String) (vN : Option String) (st : Store)
    (hsane : storeSane k st = true)
    (hfmt : parseLine (formatLine k vN) = some (k, vN)) :
    ∃ bs bs', parseStore st = some bs ∧
      parseStore (st.map (fun l => if containsSub l k then formatLine k vN else l)) =
        some bs' ∧
      lastBinding k bs' = (if hasSub st k then some vN else none) ∧
      (∀ m, m ≠ k → lastBinding m bs' = lastBinding m bs) := by
  induction st with
  | nil => exact ⟨[], [], rfl, rfl, by simp [hasSub, lastBinding], fun m _ => rfl⟩
  | cons l ls ih =>
    simp only [storeSane, List.all_cons, Bool.and_eq_true] at hsane
    obtain ⟨bs, bs', hbs, hbs', hk, hm⟩ := ih hsane.2
    obtain ⟨b, hb⟩ := saneFor_parse hsane.1
    by_cases hc : containsSub l k = true
    · obtain ⟨v0, hb0⟩ := saneFor_binds hsane.1 hc
      refine ⟨(k, v0) :: bs, (k, vN) :: bs', ?_, ?_, ?_, ?_⟩
      · simp [parseStore, hb0, hbs]
      · simp [parseStore, List.map_cons, hc, hfmt, hbs']
      · simp only [lastBinding, hk]
        have hsub : hasSub (l :: ls) k = true := by
          simp [hasSub, List.any_cons, hc]
        rw [hsub]
        by_cases hs : hasSub ls k = true <;> simp [hs]
      · intro m hmk
        simp only [lastBinding, hm m hmk]
        have hkm : (k = m) = False := eq_false (fun h => hmk h.symm)
        cases lastBinding m bs <;> simp [hkm]
    · have hc0 : containsSub l k = false := by
        revert hc
        cases containsSub l k <;> simp
      have hbk : b.1 ≠ k := by
        rcases b with ⟨n, v0⟩
        intro hbk
        simp only at hbk
        subst hbk
        exact absurd (parseLine_containsSub hb) (by simp [hc0])
      refine ⟨b :: bs, b :: bs', ?_, ?_, ?_, ?_⟩
      · simp [parseStore, hb, hbs]
      · simp [List.map_cons, hc0, parseStore, hb, hbs']
      · simp only [lastBinding, hk]
        have hbkF : (b.1 = k) = False := eq_false hbk
        have hsub : hasSub (l :: ls) k = hasSub ls k := by
          simp [hasSub, List.any_cons, hc0]
        rw [hsub]
        by_cases hs : hasSub ls k = true <;> simp [hs, hbkF]
      · intro m hmk
        simp only [lastBinding, hm m hmk]

theorem normalizeSecret_some_ne {v : Option String} {s : String}
    (h : normalizeSecret v = some s) : s ≠ "" := by
  intro hs
  subst hs
  exact normalizeSecret_ne_some_empty v h

theorem string_data_ext {a b : String} (h : a.data = b.data) : a = b := by
  cases a
  cases b
  exact congrArg String.mk h

theorem dynamic_set_secret_snd (st : Store) (k : String) (v : Option String) :
    (dynamic_set_secret st k v).snd =
      (if hasSub st k
       then st.map (fun l => if containsSub l k then formatLine k (normalizeSecret v) else l)
       else st.map (fun l => if containsSub l k then formatLine k (normalizeSecret v) else l)
         ++ [appendLine k (normalizeSecret v)]) := rfl

theorem dynamic_set_secret_fst (st : Store) (k : String) (v : Option String) :
    (dynamic_set_secret st k v).fst = (normalizeSecret v).isSome := rfl

theorem map_set_id (st : Store) (k : String) (vN : Option String)
    (hns : hasSub st k = false) :
    st.map (fun l => if containsSub l k then formatLine k vN else l) = st := by
  have hall : ∀ l ∈ st, containsSub l k = false := by
    intro l hl
    have := List.any_eq_false.mp (by simpa [hasSub] using hns) l hl
    revert this
    cases containsSub l k <;> simp
  have : ∀ l ∈ st, (if containsSub l k then formatLine k vN else l) = id l := by
    intro l hl
    simp [hall l hl]
  rw [List.map_congr_left this, List.map_id]

/-- The always-quoted appended line is the formatted line for the value
`str(value)`: the value itself when set, the literal text `None` otherwise. -/
theorem appendLine_eq_formatLine (k : String) (vN : Option String) :
    appendLine k vN =
      formatLine k (some (match vN with | none => "None" | some s => s)) := by
  apply string_data_ext
  rcases vN with _ | s <;>
    simp [appendLine, formatLine, pyRepr, String.data_append]

theorem clean_appendVal (v : Option String)
    (hclean : cleanOptB (normalizeSecret v) = true) :
    cleanOptB (some (match normalizeSecret v with | none => "None" | some s => s)) =
      true := by
  rcases h : normalizeSecret v with _ | s
  · decide
  · rw [h] at hclean
    exact hclean

theorem parseStore_append_single (st : Store) (l : String)
    {bs : List (String × Option String)} {b : String × Option String}
    (hbs : parseStore st = some bs) (hb : parseLine l = some b) :
    parseStore (st ++ [l]) = some (bs ++ [b]) := by
  induction st generalizing bs with
  | nil =>
    simp only [parseStore] at hbs
    cases hbs
    simp [parseStore, hb]
  | cons x xs ih =>
    simp only [parseStore] at hbs
    rcases hx : parseLine x with _ | bx <;> rw [hx] at hbs
    · exact absurd hbs (by simp)
    · rcases hxs : parseStore xs with _ | bsx <;> rw [hxs] at hbs
      · exact absurd hbs (by simp)
      · cases hbs
        simp [parseStore, hx, ih hxs]

/-- Round trip through `dynamic_set_secret` / `dynamic_get_secret` for a
`k`-sane store, provided either some line already mentions `k` (the
in-place-rewrite branch) or the normalised value is non-empty (so the
append branch writes a faithful quoted line). -/
theorem set_get (st : Store) (k : String) (v : Option String)
    (hident : isIdentName k = true)
    (hclean : cleanOptB (normalizeSecret v) = true)
    (hsane : storeSane k st = true)
    (hfound : hasSub st k = true ∨ (normalizeSecret v).isSome = true) :
    dynamic_get_secret (dynamic_set_secret st k v).snd k =
      .ok (normalizeSecret v) := by
  have hfmt := parseLine_formatLine k (normalizeSecret v) hident hclean
  rw [dynamic_set_secret_snd]
  by_cases hf : hasSub st k = true
  · rw [if_pos hf]
    obtain ⟨bs, bs', hbs, hbs', hk, _⟩ :=
      parseStore_map_set k (normalizeSecret v) st hsane hfmt
    unfold dynamic_get_secret
    rw [hbs']
    show Except.ok (normalizeSecret ((lastBinding k bs').getD none)) =
      Except.ok (normalizeSecret v)
    rw [hk, if_pos hf]
    simp [normalizeSecret_idem]
  · rw [if_neg hf]
    have hf0 : hasSub st k = false := by
      revert hf
      cases hasSub st k <;> simp
    rcases hfound with hfound | hsome
    · exact absurd hfound hf
    · obtain ⟨s, hs⟩ : ∃ s, normalizeSecret v = some s :=
        Option.isSome_iff_exists.mp hsome
      rw [map_set_id st k _ hf0]
      obtain ⟨bs, hbs⟩ := storeSane_parseStore hsane
      have happ : parseLine (appendLine k (normalizeSecret v)) = some (k, some s) := by
        rw [appendLine_eq_formatLine, hs]
        refine parseLine_formatLine k (some s) hident ?_
        rw [hs] at hclean
        exact hclean
      have hps := parseStore_append_single st _ hbs happ
      have hlast : lastBinding k [(k, some s)] = some (some s) := by
        simp [lastBinding]
      unfold dynamic_get_secret
      rw [hps]
      show Except.ok (normalizeSecret ((lastBinding k (bs ++ [(k, some s)])).getD none)) =
        Except.ok (normalizeSecret v)
      rw [lastBinding_append, hlast, hs]
      simp [normalizeSecret_of_ne_empty (normalizeSecret_some_ne hs)]

/-- Writing key `k` does not change what any other name reads back as. -/
theorem set_frame (st : Store) (k m : String) (v : Option String)
    (hident : isIdentName k = true)
    (hclean : cleanOptB (normalizeSecret v) = true)
    (hsane : storeSane k st = true)
    (hm : m ≠ k) :
    dynamic_get_secret (dynamic_set_secret st k v).snd m =
      dynamic_get_secret st m := by
  have hfmt := parseLine_formatLine k (normalizeSecret v) hident hclean
  obtain ⟨bs, bs', hbs, hbs', _, hmm⟩ :=
    parseStore_map_set k (normalizeSecret v) st hsane hfmt
  rw [dynamic_set_secret_snd]
  by_cases hf : hasSub st k = true
  · rw [if_pos hf]
    unfold dynamic_get_secret
    rw [hbs', hbs]
    show Except.ok (normalizeSecret ((lastBinding m bs').getD none)) =
      Except.ok (normalizeSecret ((lastBinding m bs).getD none))
    rw [hmm m hm]
  · rw [if_neg hf]
    have hf0 : hasSub st k = false := by
      revert hf
      cases hasSub st k <;> simp
    rw [map_set_id st k _ hf0]
    have happ : parseLine (appendLine k (normalizeSecret v)) =
        some (k, some (match normalizeSecret v with | none => "None" | some s => s)) := by
      rw [appendLine_eq_formatLine]
      exact parseLine_formatLine k _ hident (clean_appendVal v hclean)
    have hps := parseStore_append_single st _ hbs happ
    have hkmF : (k = m) = False := eq_false (fun h => hm h.symm)
    have hlast : lastBinding m
        [(k, some (match normalizeSecret v with | none => "None" | some s => s))] =
        none := by
      simp [lastBinding, hkmF]
    unfold dynamic_get_secret
    rw [hps, hbs]
    show Except.ok (normalizeSecret ((lastBinding m
        (bs ++ [(k, some (match normalizeSecret v with | none => "None" | some s => s))])).getD
        none)) =
      Except.ok (normalizeSecret ((lastBinding m bs).getD none))
    rw [lastBinding_append, hlast]

/-- Writing key `k` preserves `m`-sanity, provided the line it writes is
itself `m`-sane. -/
theorem set_sane (st : Store) (k m : String) (v : Option String)
    (hsaneM : storeSane m st = true)
    (hfmtS : saneFor m (formatLine k (normalizeSecret v)) = true)
    (happS : saneFor m (appendLine k (normalizeSecret v)) = true) :
    storeSane m (dynamic_set_secret st k v).snd = true := by
  rw [dynamic_set_secret_snd]
  have hmap : (st.map
      (fun l => if containsSub l k then formatLine k (normalizeSecret v) else l)).all
      (saneFor m) = true := by
    rw [List.all_map, List.all_eq_true]
    intro l hl
    by_cases hc : containsSub l k = true
    · simpa [Function.comp, hc] using hfmtS
    · have := List.all_eq_true.mp hsaneM l hl
      simpa [Function.comp, hc] using this
  by_cases hf : hasSub st k = true
  · rw [if_pos hf]
    exact hmap
  · rw [if_neg hf]
    unfold storeSane
    rw [List.all_append, hmap]
    simp [happS]

/-- Writing key `k` keeps the `name_found` flag set for every other sane key:
the line that contains `m` binds `m`, hence cannot also contain `k` (which
would force it to bind `k`), so it is not rewritten. -/
theorem set_hasSub (st : Store) (k m : String) (v : Option String)
    (hsaneK : storeSane k st = true) (hsaneM : storeSane m st = true)
    (hkm : k ≠ m) (hhs : hasSub st m = true) :
    hasSub (dynamic_set_secret st k v).snd m = true := by
  obtain ⟨l, hl, hcl⟩ := List.any_eq_true.mp hhs
  have hsm : saneFor m l = true := List.all_eq_true.mp hsaneM l hl
  obtain ⟨w, hw⟩ := saneFor_binds hsm hcl
  have hck : containsSub l k = false := by
    by_contra hcc
    have hcc' : containsSub l k = true := by
      revert hcc
      cases containsSub l k <;> simp
    obtain ⟨w2, hw2⟩ := saneFor_binds (List.all_eq_true.mp hsaneK l hl) hcc'
    rw [hw] at hw2
    exact hkm (congrArg Prod.fst (Option.some.inj hw2)).symm
  have hmem : l ∈ st.map
      (fun l => if containsSub l k then formatLine k (normalizeSecret v) else l) := by
    rw [List.mem_map]
    exact ⟨l, hl, by simp [hck]⟩
  rw [dynamic_set_secret_snd]
  by_cases hf : hasSub st k = true
  · rw [if_pos hf]
    exact List.any_eq_true.mpr ⟨l, hmem, hcl⟩
  · rw [if_neg hf]
    unfold hasSub
    rw [List.any_append]
    have hx : (st.map
        (fun l => if containsSub l k then formatLine k (normalizeSecret v) else l)).any
        (fun l => containsSub l m) = true := List.any_eq_true.mpr ⟨l, hmem, hcl⟩
    simp [hx]

/-! ## Hex identifiers and substring-exclusion lemmas

`dynamic_set_secret` rewrites by substring match, so proving that the
generated access-point credential lines are not clobbered by later writes of
the other keys needs: no recognised key name occurs inside a line whose value
part is the device id in uppercase hexadecimal. -/


theorem all_getD {p : Char → Bool} (l : List Char) (n : Nat) (d : Char)
    (hl : l.all p = true) (hd : p d = true) : p (l.getD n d) = true := by
  induction l generalizing n with
  | nil => simpa [List.getD]
  | cons c cs ih =>
    simp only [List.all_cons, Bool.and_eq_true] at hl
    cases n with
    | zero => simpa [List.getD] using hl.1
    | succ m =>
      simp only [List.getD_cons_succ]
      exact ih m hl.2

theorem hexDigit_hexUpChar (n : Nat) : hexUpChar (hexDigit n) = true := by
  unfold hexDigit
  exact all_getD hexDigits n 'F' (by decide) (by decide)

theorem hexUpChar_elim {c : Char} (h : hexUpChar c = true)
    {p : Char → Bool} (hp : hexDigits.all p = true) : p c = true := by
  unfold hexUpChar at h
  have hmem : c ∈ hexDigits := by
    exact List.elem_iff.mp h
  exact List.all_eq_true.mp hp c hmem

theorem hexUpChar_clean {c : Char} (h : hexUpChar c = true) : cleanCharB c = true :=
  hexUpChar_elim h (by decide)

theorem hexUpChar_ident {c : Char} (h : hexUpChar c = true) : isIdentChar c = true :=
  hexUpChar_elim h (by decide)

theorem hexUpper_chars (bs : List Nat) : (hexUpper bs).data.all hexUpChar = true := by
  induction bs with
  | nil => rfl
  | cons b cs ih =>
    show ((byteHex b ++ hexUpper cs).data.all hexUpChar) = true
    rw [String.data_append, List.all_append]
    have h1 : (byteHex b).data.all hexUpChar = true := by
      show ([hexDigit (b / 16 % 16), hexDigit (b % 16)].all hexUpChar) = true
      simp [hexDigit_hexUpChar]
    simp [h1, ih]

theorem hexUpper_clean (bs : List Nat) : cleanStrB (hexUpper bs) = true := by
  unfold cleanStrB
  rw [List.all_eq_true]
  intro c hc
  exact hexUpChar_clean (List.all_eq_true.mp (hexUpper_chars bs) c hc)

theorem hexUpper_ne_empty {bs : List Nat} (h : bs ≠ []) : hexUpper bs ≠ "" := by
  rcases bs with _ | ⟨b, cs⟩
  · exact absurd rfl h
  · intro hempty
    have := congrArg String.data hempty
    rw [show (hexUpper (b :: cs)) = byteHex b ++ hexUpper cs from rfl,
      String.data_append] at this
    exact absurd this (by simp [byteHex])


theorem isPrefixOf_false_of_mismatch (pat : List Char) :
    ∀ s t : List Char, mismatchInside pat s = true →
      List.isPrefixOf pat (s ++ t) = false := by
  induction pat with
  | nil =>
    intro s t h
    cases s <;> simp [mismatchInside] at h
  | cons p ps ih =>
    intro s t h
    cases s with
    | nil => simp [mismatchInside] at h
    | cons c cs =>
      simp only [mismatchInside, Bool.or_eq_true] at h
      simp only [List.cons_append, List.isPrefixOf]
      rcases h with h | h
      · have hne : (p == c) = false := by
          revert h
          cases hpc : p == c <;> simp [bne, hpc]
        simp [hne]
      · simp [ih cs t h]


/-- A pattern whose second character is neither an uppercase hex digit nor a
quote cannot occur in `mid ++ ['\'']` when `mid` is all hex. -/
theorem listContains_hex_false (p0 p1 : Char) (patR : List Char)
    (h1 : hexUpChar p1 = false) (hq : (p1 == '\'') = false) :
    ∀ mid : List Char, mid.all hexUpChar = true →
      listContains (mid ++ ['\'']) (p0 :: p1 :: patR) = false := by
  intro mid
  induction mid with
  | nil =>
    intro _
    simp [listContains, List.isPrefixOf]
  | cons c cs ih =>
    intro hmid
    simp only [List.all_cons, Bool.and_eq_true] at hmid
    have hpre : List.isPrefixOf (p0 :: p1 :: patR) (c :: (cs ++ ['\''])) = false := by
      simp only [List.isPrefixOf]
      cases hcs : cs with
      | nil =>
        simp [List.isPrefixOf, hq]
      | cons c' cs' =>
        have hc' : hexUpChar c' = true := by
          rw [hcs] at hmid
          exact List.all_eq_true.mp hmid.2 c' (by simp)
        have hnc : (p1 == c') = false := by
          cases hbe : p1 == c'
          · rfl
          · rw [eq_of_beq hbe] at h1
            rw [hc'] at h1
            cases h1
        simp [List.isPrefixOf, hnc]
    show listContains ((c :: cs) ++ ['\'']) (p0 :: p1 :: patR) = false
    rw [List.cons_append]
    simp only [listContains, hpre, Bool.false_or]
    exact ih hmid.2

theorem listContains_pre_false (pat : List Char) :
    ∀ pre rest : List Char, allSuffixesMismatch pat pre = true →
      listContains rest pat = false →
      listContains (pre ++ rest) pat = false := by
  intro pre
  induction pre with
  | nil =>
    intro rest _ hrest
    exact hrest
  | cons a as ih =>
    intro rest hpre hrest
    rcases pat with _ | ⟨p, ps⟩
    · cases rest <;> simp [listContains] at hrest
    · simp only [allSuffixesMismatch, Bool.and_eq_true] at hpre
      have hprefix : List.isPrefixOf (p :: ps) ((a :: as) ++ rest) = false :=
        isPrefixOf_false_of_mismatch (p :: ps) (a :: as) rest hpre.1
      show listContains ((a :: as) ++ rest) (p :: ps) = false
      rw [List.cons_append]
      simp only [listContains]
      rw [← List.cons_append, hprefix]
      simp only [Bool.false_or]
      exact ih rest hpre.2 hrest

/-- No recognised key name occurs in a line of shape
`<concrete prefix>'<hex>'` — the hex middle cannot contain the second letter
of the key, and every suffix of the concrete prefix mismatches. -/
theorem containsSub_hexline_false (pre : String) (bs : List Nat)
    (p0 p1 : Char) (patR : List Char)
    (h1 : hexUpChar p1 = false) (hq : (p1 == '\'') = false)
    (hpre : allSuffixesMismatch (p0 :: p1 :: patR) pre.data = true) :
    listContains (pre.data ++ ((hexUpper bs).data ++ ['\''])) (p0 :: p1 :: patR) =
      false :=
  listContains_pre_false (p0 :: p1 :: patR) pre.data ((hexUpper bs).data ++ ['\''])
    hpre (listContains_hex_false p0 p1 patR h1 hq (hexUpper bs).data (hexUpper_chars bs))


theorem apSsidLine_data (bs : List Nat) :
    (apSsidLine bs).data = "AP_SSID = 'PICO-W-".data ++ ((hexUpper bs).data ++ ['\'']) := by
  show ("AP_SSID" ++ " = " ++ ("'" ++ ("PICO-W-" ++ hexUpper bs) ++ "'")).data = _
  simp [String.data_append]

theorem apPwLine_data (bs : List Nat) :
    (apPwLine bs).data = "AP_PASSWORD = '".data ++ ((hexUpper bs).data ++ ['\'']) := by
  show ("AP_PASSWORD" ++ " = " ++ ("'" ++ hexUpper bs ++ "'")).data = _
  simp [String.data_append]

theorem apSsidLine_no_apPassword (bs : List Nat) :
    containsSub (apSsidLine bs) "AP_PASSWORD" = false := by
  unfold containsSub
  rw [apSsidLine_data]
  exact containsSub_hexline_false "AP_SSID = 'PICO-W-" bs 'A' 'P' "_PASSWORD".data
    (by decide) (by decide) (by decide)

theorem apSsidLine_no_wlanSsid (bs : List Nat) :
    containsSub (apSsidLine bs) "WLAN_SSID" = false := by
  unfold containsSub
  rw [apSsidLine_data]
  exact containsSub_hexline_false "AP_SSID = 'PICO-W-" bs 'W' 'L' "AN_SSID".data
    (by decide) (by decide) (by decide)

theorem apSsidLine_no_wlanPassword (bs : List Nat) :
    containsSub (apSsidLine bs) "WLAN_PASSWORD" = false := by
  unfold containsSub
  rw [apSsidLine_data]
  exact containsSub_hexline_false "AP_SSID = 'PICO-W-" bs 'W' 'L' "AN_PASSWORD".data
    (by decide) (by decide) (by decide)

theorem apPwLine_no_apSsid (bs : List Nat) :
    containsSub (apPwLine bs) "AP_SSID" = false := by
  unfold containsSub
  rw [apPwLine_data]
  exact containsSub_hexline_false "AP_PASSWORD = '" bs 'A' 'P' "_SSID".data
    (by decide) (by decide) (by decide)

theorem apPwLine_no_wlanSsid (bs : List Nat) :
    containsSub (apPwLine bs) "WLAN_SSID" = false := by
  unfold containsSub
  rw [apPwLine_data]
  exact containsSub_hexline_false "AP_PASSWORD = '" bs 'W' 'L' "AN_SSID".data
    (by decide) (by decide) (by decide)

theorem apPwLine_no_wlanPassword (bs : List Nat) :
    containsSub (apPwLine bs) "WLAN_PASSWORD" = false := by
  unfold containsSub
  rw [apPwLine_data]
  exact containsSub_hexline_false "AP_PASSWORD = '" bs 'W' 'L' "AN_PASSWORD".data
    (by decide) (by decide) (by decide)

/-! ## Well-shaped stores -/


theorem goodStore_sane {st : Store} {k : String} (h : goodStore st = true)
    (hk : k ∈ recognisedKeys) : storeSane k st = true := by
  have := List.all_eq_true.mp h k hk
  exact (Bool.and_eq_true .. ▸ this).1

theorem goodStore_hasSub {st : Store} {k : String} (h : goodStore st = true)
    (hk : k ∈ recognisedKeys) : hasSub st k = true := by
  have := List.all_eq_true.mp h k hk
  exact (Bool.and_eq_true .. ▸ this).2

theorem goodStore_get_ok (st : Store) (k m : String) (h : goodStore st = true)
    (hk : k ∈ recognisedKeys) :
    ∃ x, dynamic_get_secret st m = .ok x := by
  obtain ⟨bs, hbs⟩ := storeSane_parseStore (goodStore_sane h hk)
  exact ⟨_, by unfold dynamic_get_secret; rw [hbs]⟩

theorem saneFor_of_parse_self {m l : String} {v : Option String}
    (hp : parseLine l = some (m, v)) : saneFor m l = true := by
  unfold saneFor
  rw [hp]
  simp

theorem saneFor_of_not_contains {m l : String}
    (hp : ∃ b, parseLine l = some b) (hc : containsSub l m = false) :
    saneFor m l = true := by
  obtain ⟨b, hb⟩ := hp
  unfold saneFor
  rw [hb, hc]
  simp

theorem valueOK_clean {k : String} {v : Option String} (h : valueOK k v = true) :
    cleanOptB (normalizeSecret v) = true := by
  unfold valueOK at h
  exact (Bool.and_eq_true .. ▸ h).1

theorem valueOK_saneFor {k m : String} {v : Option String}
    (hident : isIdentName k = true)
    (h : valueOK k v = true) (hm : m ∈ recognisedKeys) :
    saneFor m (formatLine k (normalizeSecret v)) = true ∧
    saneFor m (appendLine k (normalizeSecret v)) = true := by
  have hclean := valueOK_clean h
  have hfmt := parseLine_formatLine k (normalizeSecret v) hident hclean
  have happ : parseLine (appendLine k (normalizeSecret v)) =
      some (k, some (match normalizeSecret v with | none => "None" | some s => s)) := by
    rw [appendLine_eq_formatLine]
    exact parseLine_formatLine k _ hident (clean_appendVal v hclean)
  unfold valueOK at h
  have hall := List.all_eq_true.mp (Bool.and_eq_true .. ▸ h).2 m hm
  rcases Bool.or_eq_true .. ▸ hall with hmk | hboth
  · have hmk' : m = k := by simpa using hmk
    subst hmk'
    exact ⟨saneFor_of_parse_self hfmt, saneFor_of_parse_self happ⟩
  · have h1 : containsSub (formatLine k (normalizeSecret v)) m = false := by
      have := (Bool.and_eq_true .. ▸ hboth).1
      revert this
      cases containsSub (formatLine k (normalizeSecret v)) m <;> simp
    have h2 : containsSub (appendLine k (normalizeSecret v)) m = false := by
      have := (Bool.and_eq_true .. ▸ hboth).2
      revert this
      cases containsSub (appendLine k (normalizeSecret v)) m <;> simp
    exact ⟨saneFor_of_not_contains ⟨_, hfmt⟩ h1, saneFor_of_not_contains ⟨_, happ⟩ h2⟩

/-- The rewritten or appended line for `k` itself still contains `k`. -/
theorem set_hasSub_self (st : Store) (k : String) (v : Option String)
    (hident : isIdentName k = true)
    (hclean : cleanOptB (normalizeSecret v) = true)
    (hhs : hasSub st k = true) :
    hasSub (dynamic_set_secret st k v).snd k = true := by
  obtain ⟨l, hl, hcl⟩ := List.any_eq_true.mp hhs
  have hfmt := parseLine_formatLine k (normalizeSecret v) hident hclean
  have hcf : containsSub (formatLine k (normalizeSecret v)) k = true :=
    parseLine_containsSub hfmt
  have hmem : formatLine k (normalizeSecret v) ∈ st.map
      (fun l => if containsSub l k then formatLine k (normalizeSecret v) else l) := by
    rw [List.mem_map]
    exact ⟨l, hl, by simp [hcl]⟩
  rw [dynamic_set_secret_snd]
  by_cases hf : hasSub st k = true
  · rw [if_pos hf]
    exact List.any_eq_true.mpr ⟨_, hmem, hcf⟩
  · exact absurd hhs hf

/-- Writing a fit value under a recognised key preserves well-shapedness. -/
theorem goodStore_set (st : Store) (k : String) (v : Option String)
    (hk : k ∈ recognisedKeys) (hident : isIdentName k = true)
    (hv : valueOK k v = true) (hgood : goodStore st = true) :
    goodStore (dynamic_set_secret st k v).snd = true := by
  unfold goodStore
  rw [List.all_eq_true]
  intro m hm
  rw [Bool.and_eq_true]
  have hsanes := valueOK_saneFor hident hv hm
  constructor
  · exact set_sane st k m v (goodStore_sane hgood hm) hsanes.1 hsanes.2
  · by_cases hmk : m = k
    · subst hmk
      exact set_hasSub_self st m v hident (valueOK_clean hv) (goodStore_hasSub hgood hm)
    · exact set_hasSub st k m v (goodStore_sane hgood hk) (goodStore_sane hgood hm)
        (fun h => hmk h.symm) (goodStore_hasSub hgood hm)

theorem picoSsid_ne_empty (bs : List Nat) : ("PICO-W-" ++ hexUpper bs) ≠ "" := by
  intro h
  have := congrArg String.data h
  rw [String.data_append] at this
  exact absurd this (by simp [show "PICO-W-".data = 'P' :: "ICO-W-".data from rfl])

theorem picoSsid_clean (bs : List Nat) : cleanStrB ("PICO-W-" ++ hexUpper bs) = true := by
  unfold cleanStrB
  rw [String.data_append, List.all_append]
  have h2 := hexUpper_clean bs
  unfold cleanStrB at h2
  simp [h2, show ("PICO-W-".data.all cleanCharB) = true from by decide]

theorem normalize_picoSsid (bs : List Nat) :
    normalizeSecret (some ("PICO-W-" ++ hexUpper bs)) =
      some ("PICO-W-" ++ hexUpper bs) :=
  normalizeSecret_of_ne_empty (picoSsid_ne_empty bs)

/-- `appendLine` and `formatLine` agree on set values, so their substring
tests agree. -/
theorem appendLine_some (k s : String) :
    appendLine k (some s) = formatLine k (some s) :=
  appendLine_eq_formatLine k (some s)

theorem valueOK_apSsid (bs : List Nat) :
    valueOK "AP_SSID" (some ("PICO-W-" ++ hexUpper bs)) = true := by
  unfold valueOK
  rw [normalize_picoSsid]
  have hclean : cleanOptB (some ("PICO-W-" ++ hexUpper bs)) = true := picoSsid_clean bs
  rw [hclean]
  have happ := appendLine_some "AP_SSID" ("PICO-W-" ++ hexUpper bs)
  simp only [recognisedKeys, List.all_cons, List.all_nil, happ, Bool.true_and,
    Bool.and_true]
  have e1 : formatLine "AP_SSID" (some ("PICO-W-" ++ hexUpper bs)) = apSsidLine bs := rfl
  rw [e1, apSsidLine_no_apPassword, apSsidLine_no_wlanSsid, apSsidLine_no_wlanPassword]
  simp

theorem valueOK_apPassword (bs : List Nat) :
    valueOK "AP_PASSWORD" (some (hexUpper bs)) = true := by
  rcases bs with _ | ⟨b, cs⟩
  · decide
  · unfold valueOK
    have hne : hexUpper (b :: cs) ≠ "" := hexUpper_ne_empty (by simp)
    rw [normalizeSecret_of_ne_empty hne]
    have hclean : cleanOptB (some (hexUpper (b :: cs))) = true := hexUpper_clean (b :: cs)
    rw [hclean]
    have happ := appendLine_some "AP_PASSWORD" (hexUpper (b :: cs))
    simp only [recognisedKeys, List.all_cons, List.all_nil, happ, Bool.true_and,
      Bool.and_true]
    have e1 : formatLine "AP_PASSWORD" (some (hexUpper (b :: cs))) = apPwLine (b :: cs) := rfl
    rw [e1, apPwLine_no_apSsid, apPwLine_no_wlanSsid, apPwLine_no_wlanPassword]
    simp

theorem valueOK_wlanSsid_none : valueOK "WLAN_SSID" none = true := by decide

theorem valueOK_wlanPassword_none : valueOK "WLAN_PASSWORD" none = true := by decide

/-! ## Polling-loop lemmas -/

theorem runPoll_all_false (cond : Nat → Bool) :
    ∀ n k, (∀ i, k ≤ i → i < k + n → cond i = false) →
      runPoll n k cond = (k + n, false) := by
  intro n
  induction n with
  | zero => intro k _; rfl
  | succ m ih =>
    intro k h
    have hk : cond k = false := h k (Nat.le_refl k) (by omega)
    show (if cond k then (k + 1, true) else runPoll m (k + 1) cond) = (k + (m + 1), false)
    rw [hk]
    simp only [Bool.false_eq_true, if_false]
    rw [ih (k + 1) (fun i h1 h2 => h i (by omega) (by omega))]
    congr 1
    omega

theorem runPoll_fst_le (cond : Nat → Bool) :
    ∀ n k, (runPoll n k cond).fst ≤ k + n := by
  intro n
  induction n with
  | zero => intro k; simp [runPoll]
  | succ m ih =>
    intro k
    show (if cond k then (k + 1, true) else runPoll m (k + 1) cond).fst ≤ k + (m + 1)
    by_cases h : cond k = true
    · simp [h]
    · have h0 : cond k = false := by revert h; cases cond k <;> simp
      rw [h0]
      simp only [Bool.false_eq_true, if_false]
      have := ih (k + 1)
      omega

theorem runPoll_first_true (cond : Nat → Bool) :
    ∀ n k i, k ≤ i → i < k + n → cond i = true →
      (∀ j, k ≤ j → j < i → cond j = false) →
      runPoll n k cond = (i + 1, true) := by
  intro n
  induction n with
  | zero => intro k i h1 h2; omega
  | succ m ih =>
    intro k i h1 h2 hc hprev
    show (if cond k then (k + 1, true) else runPoll m (k + 1) cond) = (i + 1, true)
    by_cases hk : k = i
    · subst hk
      rw [hc]
      simp
    · have hck : cond k = false := hprev k (Nat.le_refl k) (by omega)
      rw [hck]
      simp only [Bool.false_eq_true, if_false]
      exact ih (k + 1) i (by omega) (by omega) hc
        (fun j hj1 hj2 => hprev j (by omega) hj2)

/-! ## Behaviour of the connection-layer operations -/

theorem dynamic_get_secret_some_ne {st : Store} {k s : String}
    (h : dynamic_get_secret st k = .ok (some s)) : s ≠ "" := by
  unfold dynamic_get_secret at h
  rcases hps : parseStore st with _ | bs <;> rw [hps] at h
  · exact absurd h (by simp)
  · have := Except.ok.inj h
    exact normalizeSecret_some_ne this

theorem connect_interface_no_ssid (env : NetEnv) (w : WLAN) (st : Store)
    {wp : Option String}
    (hW : dynamic_get_secret st "WLAN_SSID" = .ok none)
    (hP : dynamic_get_secret st "WLAN_PASSWORD" = .ok wp) :
    connect_interface env w st = (.error .wlanConnectionError, []) := by
  unfold connect_interface
  rw [hW, hP]

theorem connect_interface_unavailable (env : NetEnv) (w : WLAN) (st : Store)
    {ssid : String} {wp : Option String}
    (hW : dynamic_get_secret st "WLAN_SSID" = .ok (some ssid))
    (hP : dynamic_get_secret st "WLAN_PASSWORD" = .ok wp)
    (hscan : ssid ∉ availableNetworks env.scan) :
    connect_interface env w st = (.error .wlanConnectionError, [.scanEv]) := by
  unfold connect_interface
  rw [hW, hP]
  simp only [if_neg hscan]

theorem connect_interface_timeout (env : NetEnv) (w : WLAN) (st : Store)
    {ssid : String} {wp : Option String}
    (hW : dynamic_get_secret st "WLAN_SSID" = .ok (some ssid))
    (hP : dynamic_get_secret st "WLAN_PASSWORD" = .ok wp)
    (hscan : ssid ∈ availableNetworks env.scan)
    (hmode : w.mode = STA_IF)
    (hpoll : ∀ i, i < 30 →
      ((env.connStatus i == STAT_GOT_IP) || env.connConnected i) = false) :
    connect_interface env w st = (.error .stopIteration, [.scanEv, .connectReq]) := by
  unfold connect_interface
  rw [hW, hP]
  have hfc := runPoll_all_false
    (fun i => (env.connStatus i == STAT_GOT_IP) || env.connConnected i) 30 0
    (fun i _ h2 => hpoll i (by omega))
  simp [hscan, hmode, hfc]

theorem access_point_reset_ok (env : NetEnv) (w : WLAN) (st : Store)
    {apS apP : Option String}
    (hA : dynamic_get_secret st "AP_SSID" = .ok apS)
    (hB : dynamic_get_secret st "AP_PASSWORD" = .ok apP) :
    access_point_reset env w st =
      .ok ({ mode := AP_IF, ssid := apS, password := apP }, AP_IF) := by
  unfold access_point_reset
  rw [hA, hB]

theorem length_ne_zero {s : String} (h : s ≠ "") : ¬(s.length = 0) := by
  intro h0
  have h1 : s.data.length = 0 := h0
  have hd : s.data = [] := List.length_eq_zero.mp h1
  exact h (string_data_ext (by simp [hd]))

theorem acquireFinish_fallback (env : NetEnv) (w : WLAN) (st2 : Store) (mode : Nat)
    {e : PyErr} {evs : List NetEvent}
    (hconn : connect_interface env w st2 = (.error e, evs))
    (he : e = PyErr.wlanConnectionError ∨ e = PyErr.stopIteration)
    {apS apP : Option String}
    (hA : dynamic_get_secret st2 "AP_SSID" = .ok apS)
    (hB : dynamic_get_secret st2 "AP_PASSWORD" = .ok apP) :
    acquireFinish env w st2 mode =
      .ok { wlan := { mode := AP_IF, ssid := apS, password := apP },
            mode := AP_IF, store := st2, events := evs ++ [.apReset] } := by
  unfold acquireFinish
  rw [hconn]
  have hr := access_point_reset_ok env w st2 hA hB
  rcases he with rfl | rfl <;> simp only [hr]

theorem acquire_run_sta (env : NetEnv) (devId : List Nat) (st : Store)
    {ssid : String} {wp : Option String} {s1 s2 : String}
    (hW : dynamic_get_secret st "WLAN_SSID" = .ok (some ssid))
    (hP : dynamic_get_secret st "WLAN_PASSWORD" = .ok wp)
    (hA : dynamic_get_secret st "AP_SSID" = .ok (some s1))
    (hB : dynamic_get_secret st "AP_PASSWORD" = .ok (some s2)) :
    get_network_interface env devId st =
      acquireFinish env { mode := STA_IF, ssid := some s1, password := some s2 }
        st STA_IF := by
  unfold get_network_interface
  rw [hW, hP, hA, hB]
  simp [length_ne_zero (dynamic_get_secret_some_ne hW)]

theorem acquire_run_ap_gen (env : NetEnv) (devId : List Nat) (st : Store)
    {wp apS0 apP0 : Option String}
    (hW : dynamic_get_secret st "WLAN_SSID" = .ok none)
    (hP : dynamic_get_secret st "WLAN_PASSWORD" = .ok wp)
    (hA : dynamic_get_secret st "AP_SSID" = .ok apS0)
    (hB : dynamic_get_secret st "AP_PASSWORD" = .ok apP0)
    (hgen : (apS0.isNone || apP0.isNone) = true) :
    get_network_interface env devId st =
      acquireFinish env
        { mode := AP_IF, ssid := some ("PICO-W-" ++ hexUpper devId),
          password := some (hexUpper devId) }
        (dynamic_set_secret (dynamic_set_secret
          (dynamic_set_secret (dynamic_set_secret st "AP_SSID"
            (some ("PICO-W-" ++ hexUpper devId))).snd
            "AP_PASSWORD" (some (hexUpper devId))).snd
          "WLAN_SSID" none).snd "WLAN_PASSWORD" none).snd
        AP_IF := by
  unfold get_network_interface
  rw [hW, hP, hA, hB]
  simp [hgen]

theorem acquire_run_ap_nogen (env : NetEnv) (devId : List Nat) (st : Store)
    {wp : Option String} {s1 s2 : String}
    (hW : dynamic_get_secret st "WLAN_SSID" = .ok none)
    (hP : dynamic_get_secret st "WLAN_PASSWORD" = .ok wp)
    (hA : dynamic_get_secret st "AP_SSID" = .ok (some s1))
    (hB : dynamic_get_secret st "AP_PASSWORD" = .ok (some s2)) :
    get_network_interface env devId st =
      acquireFinish env { mode := AP_IF, ssid := some s1, password := some s2 }
        (dynamic_set_secret (dynamic_set_secret st "WLAN_SSID" none).snd
          "WLAN_PASSWORD" none).snd AP_IF := by
  unfold get_network_interface
  rw [hW, hP, hA, hB]
  simp

/-- Clearing the station credentials (`dynamic_set_secret(k, None)` twice) on a
well-shaped store keeps it well-shaped and leaves both keys reading as unset. -/
theorem cleared_station (st1 : Store) (hg : goodStore st1 = true) :
    goodStore (dynamic_set_secret (dynamic_set_secret st1 "WLAN_SSID" none).snd
      "WLAN_PASSWORD" none).snd = true ∧
    dynamic_get_secret (dynamic_set_secret (dynamic_set_secret st1 "WLAN_SSID" none).snd
      "WLAN_PASSWORD" none).snd "WLAN_SSID" = .ok none ∧
    dynamic_get_secret (dynamic_set_secret (dynamic_set_secret st1 "WLAN_SSID" none).snd
      "WLAN_PASSWORD" none).snd "WLAN_PASSWORD" = .ok none := by
  have hm1 : "WLAN_SSID" ∈ recognisedKeys := by decide
  have hm2 : "WLAN_PASSWORD" ∈ recognisedKeys := by decide
  have h1 : goodStore (dynamic_set_secret st1 "WLAN_SSID" none).snd = true :=
    goodStore_set st1 "WLAN_SSID" none hm1 (by decide) valueOK_wlanSsid_none hg
  have h2 : goodStore (dynamic_set_secret (dynamic_set_secret st1 "WLAN_SSID" none).snd
      "WLAN_PASSWORD" none).snd = true :=
    goodStore_set _ "WLAN_PASSWORD" none hm2 (by decide) valueOK_wlanPassword_none h1
  have g1 : dynamic_get_secret (dynamic_set_secret st1 "WLAN_SSID" none).snd
      "WLAN_SSID" = .ok none := by
    have := set_get st1 "WLAN_SSID" none (by decide) (by decide)
      (goodStore_sane hg hm1) (Or.inl (goodStore_hasSub hg hm1))
    simpa [normalizeSecret] using this
  have g1' : dynamic_get_secret (dynamic_set_secret
      (dynamic_set_secret st1 "WLAN_SSID" none).snd "WLAN_PASSWORD" none).snd
      "WLAN_SSID" = .ok none := by
    rw [set_frame _ "WLAN_PASSWORD" "WLAN_SSID" none (by decide) (by decide)
      (goodStore_sane h1 hm2) (by decide)]
    exact g1
  have g2 : dynamic_get_secret (dynamic_set_secret
      (dynamic_set_secret st1 "WLAN_SSID" none).snd "WLAN_PASSWORD" none).snd
      "WLAN_PASSWORD" = .ok none := by
    have := set_get _ "WLAN_PASSWORD" none (by decide) (by decide)
      (goodStore_sane h1 hm2) (Or.inl (goodStore_hasSub h1 hm2))
    simpa [normalizeSecret] using this
  exact ⟨h2, g1', g2⟩

/-! ## Claim theorems -/

/-- C4: `connection_issue` is a pure, side-effect-free function of the mode
constant and the interface's connected flag: true in AccessPoint mode
whatever the flag, false for a connected Station, true for an unconnected
Station. -/
theorem c4_connection_issue_pure_table :
    (∀ c : Bool, connection_issue AP_IF c = true) ∧
    connection_issue STA_IF true = false ∧
    connection_issue STA_IF false = true := by
  refine ⟨fun c => ?_, rfl, rfl⟩
  cases c <;> rfl

/-- C8: `activate_interface` and `deactivate_interface` poll the interface at
most 5 times and always return (the model's total return type is the absence
of an escaping exception: the `StopIteration` of the exhausted
`iter(range(5))` is caught in both functions).  They return early at the
first poll that reports the desired state, and return `(5, false)` — rather
than failing — when the budget is exhausted. -/
theorem c8_activation_polls_bounded (env : NetEnv) :
    (activate_interface env).fst ≤ 5 ∧
    (deactivate_interface env).fst ≤ 5 ∧
    ((∀ i, i < 5 → ((env.actStatus i == STAT_GOT_IP) || env.actActive i) = false) →
      activate_interface env = (5, false)) ∧
    ((∀ i, i < 5 → (!(env.deactActive i)) = false) →
      deactivate_interface env = (5, false)) ∧
    (∀ i, i < 5 → ((env.actStatus i == STAT_GOT_IP) || env.actActive i) = true →
      (∀ j, j < i → ((env.actStatus j == STAT_GOT_IP) || env.actActive j) = false) →
      activate_interface env = (i + 1, true)) ∧
    (∀ i, i < 5 → (!(env.deactActive i)) = true →
      (∀ j, j < i → (!(env.deactActive j)) = false) →
      deactivate_interface env = (i + 1, true)) := by
  refine ⟨?_, ?_, ?_, ?_, ?_, ?_⟩
  · simpa using runPoll_fst_le _ 5 0
  · simpa using runPoll_fst_le _ 5 0
  · intro h
    exact runPoll_all_false _ 5 0 (fun i _ h2 => h i (by omega))
  · intro h
    exact runPoll_all_false _ 5 0 (fun i _ h2 => h i (by omega))
  · intro i hi hc hprev
    exact runPoll_first_true _ 5 0 i (by omega) (by omega) hc
      (fun j _ hj => hprev j hj)
  · intro i hi hc hprev
    exact runPoll_first_true _ 5 0 i (by omega) (by omega) hc
      (fun j _ hj => hprev j hj)

/-- C8 witness: with an environment whose very first activation poll reports
active and whose first deactivation poll reports inactive, both loops return
after one poll. -/
theorem c8_witness :
    activate_interface exEnvDead = (1, true) ∧
    deactivate_interface exEnvDead = (1, true) := by
  have h := c8_activation_polls_bounded exEnvDead
  exact ⟨h.2.2.2.2.1 0 (by omega) (by decide) (fun j hj => by omega),
    h.2.2.2.2.2 0 (by omega) (by decide) (fun j hj => by omega)⟩

/-- C7: `access_point_reset` cannot fail on a readable secrets file, always
returns `AP_IF`, and is idempotent in its observable result: two successive
invocations configure the fresh AP interface with the same SSID/password
pair, because the call reads (and never writes) the stored AP credentials. -/
theorem c7_access_point_reset_idempotent (env1 env2 : NetEnv) (w : WLAN)
    (st : Store) (h : ∃ bs, parseStore st = some bs) :
    ∃ w1 w2 : WLAN,
      access_point_reset env1 w st = .ok (w1, AP_IF) ∧
      access_point_reset env2 w1 st = .ok (w2, AP_IF) ∧
      w1.mode = AP_IF ∧ w2.mode = AP_IF ∧
      w1.ssid = w2.ssid ∧ w1.password = w2.password := by
  obtain ⟨bs, hbs⟩ := h
  have hA : dynamic_get_secret st "AP_SSID" =
      .ok (normalizeSecret ((lastBinding "AP_SSID" bs).getD none)) := by
    unfold dynamic_get_secret
    rw [hbs]
  have hB : dynamic_get_secret st "AP_PASSWORD" =
      .ok (normalizeSecret ((lastBinding "AP_PASSWORD" bs).getD none)) := by
    unfold dynamic_get_secret
    rw [hbs]
  exact ⟨_, _, access_point_reset_ok env1 w st hA hB,
    access_point_reset_ok env2 _ st hA hB, rfl, rfl, rfl, rfl⟩

/-- C7 witness at a concrete store and environment. -/
theorem c7_witness :
    ∃ w1 w2 : WLAN,
      access_point_reset exEnvDead { mode := STA_IF } exStoreHome =
        .ok (w1, AP_IF) ∧
      access_point_reset exEnvDead w1 exStoreHome = .ok (w2, AP_IF) ∧
      w1.mode = AP_IF ∧ w2.mode = AP_IF ∧
      w1.ssid = w2.ssid ∧ w1.password = w2.password := by
  exact c7_access_point_reset_idempotent exEnvDead exEnvDead { mode := STA_IF }
    exStoreHome ⟨_, rfl⟩

/-- C5 counterexample: writing the empty string under a key that has no
existing line takes the append branch, whose format string always quotes, so
the file gains the literal line `K = 'None'`.  Reading the key back then
yields the non-empty string "None" rather than none, and `set` returned
false even though the stored value is non-empty. -/
theorem c5_counterexample :
    (dynamic_set_secret initialSecrets "K" (some "")).fst = false ∧
    dynamic_get_secret (dynamic_set_secret initialSecrets "K" (some "")).snd "K" =
      .ok (some "None") ∧
    (Except.ok (some "None") : Except Unit (Option String)) ≠ .ok none := by
  refine ⟨rfl, rfl, ?_⟩
  simp

/-- C5 (amended): for an identifier key whose normalised value is
representable in the quoted line format (no quote, backslash or newline) and
a store that is sane for the key, writing then reading round-trips — an empty
string reads back as none — provided the key already has a line in the store
(as every recognised key does in the baseline file) or the value is
non-empty; and `set` returns true iff the normalised value is non-empty. -/
theorem c5_set_get_roundtrip (st : Store) (name : String) (v : Option String)
    (hident : isIdentName name = true)
    (hclean : cleanOptB (normalizeSecret v) = true)
    (hsane : storeSane name st = true)
    (hfound : hasSub st name = true ∨ (normalizeSecret v).isSome = true) :
    dynamic_get_secret (dynamic_set_secret st name v).snd name =
      .ok (normalizeSecret v) ∧
    ((dynamic_set_secret st name v).fst = true ↔ normalizeSecret v ≠ none) := by
  refine ⟨set_get st name v hident hclean hsane hfound, ?_⟩
  rw [dynamic_set_secret_fst]
  cases h : normalizeSecret v <;> simp

/-- C5 witness: the baseline store round-trips `WLAN_SSID := "HomeNet"`. -/
theorem c5_witness :
    dynamic_get_secret (dynamic_set_secret initialSecrets "WLAN_SSID"
      (some "HomeNet")).snd "WLAN_SSID" = .ok (normalizeSecret (some "HomeNet")) ∧
    ((dynamic_set_secret initialSecrets "WLAN_SSID" (some "HomeNet")).fst = true ↔
      normalizeSecret (some "HomeNet") ≠ none) :=
  c5_set_get_roundtrip initialSecrets "WLAN_SSID" (some "HomeNet")
    (by decide) (by decide) (by decide) (Or.inl (by decide))

/-- C2 counterexample: with `WLAN_SSID = 'HomeNet'` stored, a
`POST /connection` carrying an empty `input-ssid` is answered 400, but the
stored `WLAN_SSID` does not remain `HomeNet`: the handler's unconditional
`dynamic_set_secret("WLAN_SSID", "")` rewrites the line to `WLAN_SSID = None`,
clearing it. -/
theorem c2_counterexample :
    (set_connection (some "") (some "pw") exStoreHome).fst = 400 ∧
    dynamic_get_secret exStoreHome "WLAN_SSID" = .ok (some "HomeNet") ∧
    dynamic_get_secret (set_connection (some "") (some "pw") exStoreHome).snd
      "WLAN_SSID" = .ok none ∧
    (Except.ok (none : Option String) : Except Unit (Option String)) ≠
      .ok (some "HomeNet") := by
  refine ⟨rfl, rfl, rfl, ?_⟩
  simp

/-- C2 (amended): on an empty (or absent) submitted SSID the handler returns
the client-error status 400 and no SSID credential is persisted — the stored
`WLAN_SSID` is overwritten to the unset sentinel (clearing any previous
value, rather than leaving it unchanged). -/
theorem c2_empty_ssid_400_and_cleared (st : Store) (ssidIn pwIn : Option String)
    (hgood : goodStore st = true)
    (hpw : valueOK "WLAN_PASSWORD" pwIn = true)
    (hssid : normalizeSecret ssidIn = none) :
    (set_connection ssidIn pwIn st).fst = 400 ∧
    dynamic_get_secret (set_connection ssidIn pwIn st).snd "WLAN_SSID" =
      .ok none := by
  have hm1 : "WLAN_PASSWORD" ∈ recognisedKeys := by decide
  have hm2 : "WLAN_SSID" ∈ recognisedKeys := by decide
  have hg1 : goodStore (dynamic_set_secret st "WLAN_PASSWORD" pwIn).snd = true :=
    goodStore_set st "WLAN_PASSWORD" pwIn hm1 (by decide) hpw hgood
  have hfst : (dynamic_set_secret (dynamic_set_secret st "WLAN_PASSWORD" pwIn).snd
      "WLAN_SSID" ssidIn).fst = false := by
    rw [dynamic_set_secret_fst, hssid]
    rfl
  have hget : dynamic_get_secret (dynamic_set_secret
      (dynamic_set_secret st "WLAN_PASSWORD" pwIn).snd "WLAN_SSID" ssidIn).snd
      "WLAN_SSID" = .ok none := by
    have := set_get (dynamic_set_secret st "WLAN_PASSWORD" pwIn).snd "WLAN_SSID"
      ssidIn (by decide) (by rw [hssid]; rfl) (goodStore_sane hg1 hm2)
      (Or.inl (goodStore_hasSub hg1 hm2))
    rwa [hssid] at this
  constructor
  · show (if (dynamic_set_secret (dynamic_set_secret st "WLAN_PASSWORD" pwIn).snd
        "WLAN_SSID" ssidIn).fst then 205 else 400) = 400
    rw [hfst]
    rfl
  · exact hget

/-- C2 witness: empty SSID against the `HomeNet` store. -/
theorem c2_witness :
    (set_connection (some "") (some "pw") exStoreHome).fst = 400 ∧
    dynamic_get_secret (set_connection (some "") (some "pw") exStoreHome).snd
      "WLAN_SSID" = .ok none :=
  c2_empty_ssid_400_and_cleared exStoreHome (some "") (some "pw")
    (by decide) (by decide) (by decide)

/-- C10 counterexample: a submitted password whose text contains the key name
`WLAN_SSID` is first written, but the subsequent `dynamic_set_secret
("WLAN_SSID", ...)` substring-matches the just-written password line and
rewrites it too, so the password is not persisted at all. -/
theorem c10_counterexample :
    dynamic_get_secret
      (set_connection (some "HomeNet") (some "xWLAN_SSIDx") initialSecrets).snd
      "WLAN_PASSWORD" = .ok none ∧
    (Except.ok (none : Option String) : Except Unit (Option String)) ≠
      .ok (some "xWLAN_SSIDx") := by
  refine ⟨rfl, ?_⟩
  simp

/-- C10 (amended): for every `POST /connection` whose submitted password is
representable and does not contain a recognised key name, the handler
persists the submitted `input-password` (empty normalised to unset) as
`WLAN_PASSWORD` before validating the SSID, so the stored password is
overwritten on every request — including requests answered 400 for an
empty/invalid SSID. -/
theorem c10_password_persisted_before_validation (st : Store)
    (ssidIn pwIn : Option String)
    (hgood : goodStore st = true)
    (hpw : valueOK "WLAN_PASSWORD" pwIn = true)
    (hssid : valueOK "WLAN_SSID" ssidIn = true) :
    dynamic_get_secret (set_connection ssidIn pwIn st).snd "WLAN_PASSWORD" =
      .ok (normalizeSecret pwIn) ∧
    (normalizeSecret ssidIn = none → (set_connection ssidIn pwIn st).fst = 400) := by
  have hm1 : "WLAN_PASSWORD" ∈ recognisedKeys := by decide
  have hm2 : "WLAN_SSID" ∈ recognisedKeys := by decide
  have hg1 : goodStore (dynamic_set_secret st "WLAN_PASSWORD" pwIn).snd = true :=
    goodStore_set st "WLAN_PASSWORD" pwIn hm1 (by decide) hpw hgood
  have g1 : dynamic_get_secret (dynamic_set_secret st "WLAN_PASSWORD" pwIn).snd
      "WLAN_PASSWORD" = .ok (normalizeSecret pwIn) :=
    set_get st "WLAN_PASSWORD" pwIn (by decide) (valueOK_clean hpw)
      (goodStore_sane hgood hm1)
      (Or.inl (goodStore_hasSub hgood hm1))
  constructor
  · show dynamic_get_secret (dynamic_set_secret
      (dynamic_set_secret st "WLAN_PASSWORD" pwIn).snd "WLAN_SSID" ssidIn).snd
      "WLAN_PASSWORD" = .ok (normalizeSecret pwIn)
    rw [set_frame _ "WLAN_SSID" "WLAN_PASSWORD" ssidIn (by decide)
      (valueOK_clean hssid) (goodStore_sane hg1 hm2) (by decide)]
    exact g1
  · intro hempty
    show (if (dynamic_set_secret (dynamic_set_secret st "WLAN_PASSWORD" pwIn).snd
        "WLAN_SSID" ssidIn).fst then 205 else 400) = 400
    rw [dynamic_set_secret_fst, hempty]
    rfl

/-- C10 witness: an empty SSID (a 400 response) still overwrites the stored
password with the submitted one. -/
theorem c10_witness :
    dynamic_get_secret (set_connection (some "") (some "pw") exStoreHome).snd
      "WLAN_PASSWORD" = .ok (normalizeSecret (some "pw")) ∧
    (normalizeSecret (some "") = none →
      (set_connection (some "") (some "pw") exStoreHome).fst = 400) :=
  c10_password_persisted_before_validation exStoreHome (some "") (some "pw")
    (by decide) (by decide) (by decide)

/-- C1 counterexample: with the stored SSID visible in the scan result but the
interface never reaching a connected state within the 30-poll budget,
`connect_interface` fails by re-raising the bare `StopIteration` of the
exhausted `iter(range(30))` — a different exception type from the
`WLANConnectionError` used by every other station-connect failure — not a
`ConnectionError("timeout")`. -/
theorem c1_counterexample :
    connect_interface exEnvDead { mode := STA_IF } exStoreHome =
      (.error .stopIteration, [.scanEv, .connectReq]) ∧
    PyErr.stopIteration ≠ PyErr.wlanConnectionError := by
  refine ⟨rfl, ?_⟩
  simp

/-- C1 (amended): when the connect attempt polls the full 30-attempt budget
without reaching a connected/got-address state, `connect_interface` raises
`StopIteration` — not the distinguished `WLANConnectionError` — and the
caller's fallback is still triggered, because `get_network_interface` catches
`StopIteration` in a separate handler and invokes `access_point_reset`. -/
theorem c1_timeout_stopiteration_still_falls_back (env : NetEnv)
    (devId : List Nat) (st : Store) (ssid : String) (w : WLAN)
    {wp : Option String} {s1 s2 : String}
    (hW : dynamic_get_secret st "WLAN_SSID" = .ok (some ssid))
    (hP : dynamic_get_secret st "WLAN_PASSWORD" = .ok wp)
    (hA : dynamic_get_secret st "AP_SSID" = .ok (some s1))
    (hB : dynamic_get_secret st "AP_PASSWORD" = .ok (some s2))
    (hscan : ssid ∈ availableNetworks env.scan)
    (hmode : w.mode = STA_IF)
    (hpoll : ∀ i, i < 30 →
      ((env.connStatus i == STAT_GOT_IP) || env.connConnected i) = false) :
    connect_interface env w st = (.error .stopIteration, [.scanEv, .connectReq]) ∧
    PyErr.stopIteration ≠ PyErr.wlanConnectionError ∧
    get_network_interface env devId st =
      .ok { wlan := { mode := AP_IF, ssid := some s1, password := some s2 },
            mode := AP_IF, store := st,
            events := [.scanEv, .connectReq, .apReset] } := by
  refine ⟨connect_interface_timeout env w st hW hP hscan hmode hpoll, by simp, ?_⟩
  rw [acquire_run_sta env devId st hW hP hA hB]
  have hconn2 := connect_interface_timeout env
    { mode := STA_IF, ssid := some s1, password := some s2 } st hW hP hscan rfl hpoll
  rw [acquireFinish_fallback env _ st STA_IF hconn2 (Or.inr rfl) hA hB]
  rfl

/-- C1 witness: the dead-radio environment against the `HomeNet` store. -/
theorem c1_witness :
    connect_interface exEnvDead { mode := STA_IF } exStoreHome =
      (.error .stopIteration, [.scanEv, .connectReq]) ∧
    PyErr.stopIteration ≠ PyErr.wlanConnectionError ∧
    get_network_interface exEnvDead [230, 97] exStoreHome =
      .ok { wlan := { mode := AP_IF, ssid := some "PICO-W-E661",
                      password := some "E661" },
            mode := AP_IF, store := exStoreHome,
            events := [.scanEv, .connectReq, .apReset] } :=
  c1_timeout_stopiteration_still_falls_back exEnvDead [230, 97] exStoreHome
    "HomeNet" { mode := STA_IF } rfl rfl rfl rfl (by decide) rfl
    (fun i _ => rfl)


/-- C9 counterexample: a stored station SSID whose text is `AP_SSID`, with the
AP credentials not yet generated.  The SSID is non-empty and absent from the
scan result, the acquire call returns AccessPoint mode after exactly one
reset — but the stored `WLAN_SSID` is NOT left unchanged: the AP-credential
generation write substring-matches the `WLAN_SSID = 'AP_SSID'` line and
rewrites it into the new `AP_SSID` line, leaving `WLAN_SSID` unset. -/
theorem c9_counterexample :
    dynamic_get_secret exStore9 "WLAN_SSID" = .ok (some "AP_SSID") ∧
    "AP_SSID" ∉ availableNetworks exEnvNoScan.scan ∧
    (get_network_interface exEnvNoScan [230, 97] exStore9).map
      (fun r => dynamic_get_secret r.store "WLAN_SSID") = .ok (.ok none) ∧
    (Except.ok (none : Option String) : Except Unit (Option String)) ≠
      .ok (some "AP_SSID") := by
  refine ⟨rfl, by decide, rfl, ?_⟩
  simp

/-- C9 (amended): for every non-empty stored station SSID absent from the
scan result, provided the AP credentials are already present in the store (as
they are at any point after first boot), `connect_interface` fails with
`WLANConnectionError`, `get_network_interface` invokes `access_point_reset`
exactly once and returns AccessPoint mode, and the secrets file — in
particular `WLAN_SSID` — is completely unchanged by the call. -/
theorem c9_unavailable_ssid_one_reset_store_unchanged (env : NetEnv)
    (devId : List Nat) (st : Store) (ssid : String)
    {wp : Option String} {s1 s2 : String}
    (hW : dynamic_get_secret st "WLAN_SSID" = .ok (some ssid))
    (hP : dynamic_get_secret st "WLAN_PASSWORD" = .ok wp)
    (hA : dynamic_get_secret st "AP_SSID" = .ok (some s1))
    (hB : dynamic_get_secret st "AP_PASSWORD" = .ok (some s2))
    (hscan : ssid ∉ availableNetworks env.scan) :
    connect_interface env { mode := STA_IF, ssid := some s1, password := some s2 }
      st = (.error .wlanConnectionError, [.scanEv]) ∧
    get_network_interface env devId st =
      .ok { wlan := { mode := AP_IF, ssid := some s1, password := some s2 },
            mode := AP_IF, store := st, events := [.scanEv, .apReset] } ∧
    [NetEvent.scanEv, NetEvent.apReset].count NetEvent.apReset = 1 := by
  have hconn := connect_interface_unavailable env
    { mode := STA_IF, ssid := some s1, password := some s2 } st hW hP hscan
  refine ⟨hconn, ?_, by decide⟩
  rw [acquire_run_sta env devId st hW hP hA hB]
  rw [acquireFinish_fallback env _ st STA_IF hconn (Or.inl rfl) hA hB]
  rfl

/-- C9 witness: `HomeNet` stored but absent from an empty scan result. -/
theorem c9_witness :
    connect_interface exEnvNoScan
      { mode := STA_IF, ssid := some "PICO-W-E661", password := some "E661" }
      exStoreHome = (.error .wlanConnectionError, [.scanEv]) ∧
    get_network_interface exEnvNoScan [230, 97] exStoreHome =
      .ok { wlan := { mode := AP_IF, ssid := some "PICO-W-E661",
                      password := some "E661" },
            mode := AP_IF, store := exStoreHome,
            events := [.scanEv, .apReset] } ∧
    [NetEvent.scanEv, NetEvent.apReset].count NetEvent.apReset = 1 :=
  c9_unavailable_ssid_one_reset_store_unchanged exEnvNoScan [230, 97] exStoreHome
    "HomeNet" rfl rfl rfl rfl (by decide)

/-- C3: whenever the stored station SSID reads back as unset (absent, stored
as `None`, or the empty string — the read normalises all three to none),
`get_network_interface` returns an interface in AccessPoint mode, performs no
network scan and no station connect request, and as a side effect both
station secrets read back as unset afterwards. -/
theorem c3_unset_ssid_always_ap (env : NetEnv) (devId : List Nat) (st : Store)
    (hgood : goodStore st = true)
    (hW : dynamic_get_secret st "WLAN_SSID" = .ok none) :
    ∃ r, get_network_interface env devId st = .ok r ∧
      r.mode = AP_IF ∧ r.wlan.mode = AP_IF ∧
      NetEvent.scanEv ∉ r.events ∧ NetEvent.connectReq ∉ r.events ∧
      dynamic_get_secret r.store "WLAN_SSID" = .ok none ∧
      dynamic_get_secret r.store "WLAN_PASSWORD" = .ok none := by
  obtain ⟨wp, hP⟩ := goodStore_get_ok st "AP_SSID" "WLAN_PASSWORD" hgood (by decide)
  obtain ⟨apS0, hA⟩ := goodStore_get_ok st "AP_SSID" "AP_SSID" hgood (by decide)
  obtain ⟨apP0, hB⟩ := goodStore_get_ok st "AP_SSID" "AP_PASSWORD" hgood (by decide)
  by_cases hgen : (apS0.isNone || apP0.isNone) = true
  · rw [acquire_run_ap_gen env devId st hW hP hA hB hgen]
    have hgA : goodStore (dynamic_set_secret st "AP_SSID"
        (some ("PICO-W-" ++ hexUpper devId))).snd = true :=
      goodStore_set st "AP_SSID" _ (by decide) (by decide)
        (valueOK_apSsid devId) hgood
    have hgAB : goodStore (dynamic_set_secret (dynamic_set_secret st "AP_SSID"
        (some ("PICO-W-" ++ hexUpper devId))).snd "AP_PASSWORD"
        (some (hexUpper devId))).snd = true :=
      goodStore_set _ "AP_PASSWORD" _ (by decide) (by decide)
        (valueOK_apPassword devId) hgA
    obtain ⟨hg2, gW, gP⟩ := cleared_station _ hgAB
    obtain ⟨a2, hA2⟩ := goodStore_get_ok _ "AP_SSID" "AP_SSID" hg2 (by decide)
    obtain ⟨b2, hB2⟩ := goodStore_get_ok _ "AP_SSID" "AP_PASSWORD" hg2 (by decide)
    have hconn := connect_interface_no_ssid env
      { mode := AP_IF, ssid := some ("PICO-W-" ++ hexUpper devId),
        password := some (hexUpper devId) } _ gW gP
    rw [acquireFinish_fallback env _ _ AP_IF hconn (Or.inl rfl) hA2 hB2]
    exact ⟨_, rfl, rfl, rfl, by simp, by simp, gW, gP⟩
  · rcases apS0 with _ | s1
    · exact absurd (by simp) hgen
    rcases apP0 with _ | s2
    · exact absurd (by simp) hgen
    rw [acquire_run_ap_nogen env devId st hW hP hA hB]
    obtain ⟨hg2, gW, gP⟩ := cleared_station st hgood
    obtain ⟨a2, hA2⟩ := goodStore_get_ok _ "AP_SSID" "AP_SSID" hg2 (by decide)
    obtain ⟨b2, hB2⟩ := goodStore_get_ok _ "AP_SSID" "AP_PASSWORD" hg2 (by decide)
    have hconn := connect_interface_no_ssid env
      { mode := AP_IF, ssid := some s1, password := some s2 } _ gW gP
    rw [acquireFinish_fallback env _ _ AP_IF hconn (Or.inl rfl) hA2 hB2]
    exact ⟨_, rfl, rfl, rfl, by simp, by simp, gW, gP⟩

/-- C3 witness: the baseline store (station SSID unset). -/
theorem c3_witness :
    ∃ r, get_network_interface exEnvDead [230, 97] initialSecrets = .ok r ∧
      r.mode = AP_IF ∧ r.wlan.mode = AP_IF ∧
      NetEvent.scanEv ∉ r.events ∧ NetEvent.connectReq ∉ r.events ∧
      dynamic_get_secret r.store "WLAN_SSID" = .ok none ∧
      dynamic_get_secret r.store "WLAN_PASSWORD" = .ok none :=
  c3_unset_ssid_always_ap exEnvDead [230, 97] initialSecrets (by decide) rfl

/-- C6: starting from the baseline store with no stored values, `acquire`
returns an AccessPoint-mode interface whose SSID is `PICO-W-` followed by the
device id in uppercase hexadecimal and whose password is that hex id, and
afterwards the store holds both AP keys with exactly those values. -/
theorem c6_empty_store_generates_ap (env : NetEnv) (devId : List Nat)
    (hdev : devId ≠ []) :
    ∃ r, get_network_interface env devId initialSecrets = .ok r ∧
      r.mode = AP_IF ∧ r.wlan.mode = AP_IF ∧
      r.wlan.ssid = some ("PICO-W-" ++ hexUpper devId) ∧
      r.wlan.password = some (hexUpper devId) ∧
      dynamic_get_secret r.store "AP_SSID" =
        .ok (some ("PICO-W-" ++ hexUpper devId)) ∧
      dynamic_get_secret r.store "AP_PASSWORD" = .ok (some (hexUpper devId)) := by
  have hW : dynamic_get_secret initialSecrets "WLAN_SSID" = .ok none := rfl
  have hP : dynamic_get_secret initialSecrets "WLAN_PASSWORD" = .ok none := rfl
  have hA : dynamic_get_secret initialSecrets "AP_SSID" = .ok none := rfl
  have hB : dynamic_get_secret initialSecrets "AP_PASSWORD" = .ok none := rfl
  rw [acquire_run_ap_gen env devId initialSecrets hW hP hA hB (by decide)]
  have hcleanS : cleanOptB (normalizeSecret (some ("PICO-W-" ++ hexUpper devId))) =
      true := by
    rw [normalize_picoSsid]
    exact picoSsid_clean devId
  have hnormP : normalizeSecret (some (hexUpper devId)) = some (hexUpper devId) :=
    normalizeSecret_of_ne_empty (hexUpper_ne_empty hdev)
  have hcleanP : cleanOptB (normalizeSecret (some (hexUpper devId))) = true := by
    rw [hnormP]
    exact hexUpper_clean devId
  have hg0 : goodStore initialSecrets = true := by decide
  have hgA : goodStore (dynamic_set_secret initialSecrets "AP_SSID"
      (some ("PICO-W-" ++ hexUpper devId))).snd = true :=
    goodStore_set _ "AP_SSID" _ (by decide) (by decide) (valueOK_apSsid devId) hg0
  have hgAB : goodStore (dynamic_set_secret (dynamic_set_secret initialSecrets
      "AP_SSID" (some ("PICO-W-" ++ hexUpper devId))).snd "AP_PASSWORD"
      (some (hexUpper devId))).snd = true :=
    goodStore_set _ "AP_PASSWORD" _ (by decide) (by decide)
      (valueOK_apPassword devId) hgA
  have hgW : goodStore (dynamic_set_secret (dynamic_set_secret
      (dynamic_set_secret initialSecrets "AP_SSID"
        (some ("PICO-W-" ++ hexUpper devId))).snd "AP_PASSWORD"
      (some (hexUpper devId))).snd "WLAN_SSID" none).snd = true :=
    goodStore_set _ "WLAN_SSID" none (by decide) (by decide)
      valueOK_wlanSsid_none hgAB
  have gA1 : dynamic_get_secret (dynamic_set_secret initialSecrets "AP_SSID"
      (some ("PICO-W-" ++ hexUpper devId))).snd "AP_SSID" =
      .ok (some ("PICO-W-" ++ hexUpper devId)) := by
    have := set_get initialSecrets "AP_SSID" (some ("PICO-W-" ++ hexUpper devId))
      (by decide) hcleanS (by decide) (Or.inl (by decide))
    rwa [normalize_picoSsid] at this
  have gA2 : dynamic_get_secret (dynamic_set_secret (dynamic_set_secret
      initialSecrets "AP_SSID" (some ("PICO-W-" ++ hexUpper devId))).snd
      "AP_PASSWORD" (some (hexUpper devId))).snd "AP_SSID" =
      .ok (some ("PICO-W-" ++ hexUpper devId)) := by
    rw [set_frame _ "AP_PASSWORD" "AP_SSID" (some (hexUpper devId)) (by decide)
      hcleanP (goodStore_sane hgA (by decide)) (by decide)]
    exact gA1
  have gA3 : dynamic_get_secret (dynamic_set_secret (dynamic_set_secret
      (dynamic_set_secret initialSecrets "AP_SSID"
        (some ("PICO-W-" ++ hexUpper devId))).snd "AP_PASSWORD"
      (some (hexUpper devId))).snd "WLAN_SSID" none).snd "AP_SSID" =
      .ok (some ("PICO-W-" ++ hexUpper devId)) := by
    rw [set_frame _ "WLAN_SSID" "AP_SSID" none (by decide) (by decide)
      (goodStore_sane hgAB (by decide)) (by decide)]
    exact gA2
  have gA4 : dynamic_get_secret (dynamic_set_secret (dynamic_set_secret
      (dynamic_set_secret (dynamic_set_secret initialSecrets "AP_SSID"
        (some ("PICO-W-" ++ hexUpper devId))).snd "AP_PASSWORD"
      (some (hexUpper devId))).snd "WLAN_SSID" none).snd "WLAN_PASSWORD"
      none).snd "AP_SSID" = .ok (some ("PICO-W-" ++ hexUpper devId)) := by
    rw [set_frame _ "WLAN_PASSWORD" "AP_SSID" none (by decide) (by decide)
      (goodStore_sane hgW (by decide)) (by decide)]
    exact gA3
  have gB1 : dynamic_get_secret (dynamic_set_secret (dynamic_set_secret
      initialSecrets "AP_SSID" (some ("PICO-W-" ++ hexUpper devId))).snd
      "AP_PASSWORD" (some (hexUpper devId))).snd "AP_PASSWORD" =
      .ok (some (hexUpper devId)) := by
    have := set_get _ "AP_PASSWORD" (some (hexUpper devId)) (by decide) hcleanP
      (goodStore_sane hgA (by decide)) (Or.inl (goodStore_hasSub hgA (by decide)))
    rwa [hnormP] at this
  have gB3 : dynamic_get_secret (dynamic_set_secret (dynamic_set_secret
      (dynamic_set_secret initialSecrets "AP_SSID"
        (some ("PICO-W-" ++ hexUpper devId))).snd "AP_PASSWORD"
      (some (hexUpper devId))).snd "WLAN_SSID" none).snd "AP_PASSWORD" =
      .ok (some (hexUpper devId)) := by
    rw [set_frame _ "WLAN_SSID" "AP_PASSWORD" none (by decide) (by decide)
      (goodStore_sane hgAB (by decide)) (by decide)]
    exact gB1
  have gB4 : dynamic_get_secret (dynamic_set_secret (dynamic_set_secret
      (dynamic_set_secret (dynamic_set_secret initialSecrets "AP_SSID"
        (some ("PICO-W-" ++ hexUpper devId))).snd "AP_PASSWORD"
      (some (hexUpper devId))).snd "WLAN_SSID" none).snd "WLAN_PASSWORD"
      none).snd "AP_PASSWORD" = .ok (some (hexUpper devId)) := by
    rw [set_frame _ "WLAN_PASSWORD" "AP_PASSWORD" none (by decide) (by decide)
      (goodStore_sane hgW (by decide)) (by decide)]
    exact gB3
  obtain ⟨hg2, gW, gP⟩ := cleared_station _ hgAB
  have hconn := connect_interface_no_ssid env
    { mode := AP_IF, ssid := some ("PICO-W-" ++ hexUpper devId),
      password := some (hexUpper devId) } _ gW gP
  rw [acquireFinish_fallback env _ _ AP_IF hconn (Or.inl rfl) gA4 gB4]
  exact ⟨_, rfl, rfl, rfl, rfl, rfl, gA4, gB4⟩

/-- C6 witness at a concrete two-byte device id. -/
theorem c6_witness :
    ∃ r, get_network_interface exEnvDead [230, 97] initialSecrets = .ok r ∧
      r.mode = AP_IF ∧ r.wlan.mode = AP_IF ∧
      r.wlan.ssid = some ("PICO-W-" ++ hexUpper [230, 97]) ∧
      r.wlan.password = some (hexUpper [230, 97]) ∧
      dynamic_get_secret r.store "AP_SSID" =
        .ok (some ("PICO-W-" ++ hexUpper [230, 97])) ∧
      dynamic_get_secret r.store "AP_PASSWORD" = .ok (some (hexUpper [230, 97])) :=
  c6_empty_store_generates_ap exEnvDead [230, 97] (by simp)
